import Mathlib

/-!
# PointCloudHoleFilling: the two pipeline drivers

A shallow embedding of the two `main` functions of the repository,
`PointCloudHoleFilling.cpp` (the full pipeline) and `ReconstructRGBDxDy.cpp`
(the reconstruction-only pipeline).

Both drivers are straight-line orchestrations of library calls.  Every library
call is a field of `Env`, returns `Except String _` (an exception with its
message, or the value the call produces) and is logged in the run's event list
together with whether it succeeded.  An uncaught exception ends the run
(`Outcome.threw`), exactly as in the C++ program, which has no `try` block.
-/

namespace PCHF

/-! ## Data model -/

/-- Modelled from the spec: the region of a raster or of a cloud grid
(`itk::ImageRegion<2>`, whose declaration is not part of the sources): a start
index and a size, compared component-wise. -/
structure Region where
  index : Int × Int
  size : Nat × Nat
deriving DecidableEq, Repr

/-- A grid cell (`itk::Index<2>`). -/
abbrev Cell := Int × Int

/-- A pixel with `n` components (`itk::CovariantVector<_, n>`). -/
abbrev Vec (V : Type) (n : Nat) := Fin n → V

/-- Modelled from the spec: `Raster<C>`, a grid of samples (`itk::Image<P, 2>`). -/
structure Image (P : Type) where
  region : Region
  pixel : Cell → P

/-- Modelled from the spec: `ValidityMask`; `true` is a usable sample, `false` a hole. -/
structure Mask where
  region : Region
  valid : Cell → Bool

/-- Modelled from the spec: one point of the grid cloud. -/
structure Point (V : Type) where
  depth : V
  color : Vec V 3
  valid : Bool

/-- Modelled from the spec: `GridCloud` (`PTXImage`), an organised grid of points. -/
structure PTXImage (V : Type) where
  fullRegion : Region
  point : Cell → Point V

/-- What a driver can write to a file. -/
inductive Artifact (V : Type) where
  | pointSet (cloud : PTXImage V)
  | ptx (cloud : PTXImage V)
  | scalarImage (image : Image V)
  | vectorImage (n : Nat) (image : Image (Vec V n))

/-! ## Library calls and their trace -/

/-- The two cloud objects of the drivers. -/
inductive CloudVar where
  | ptxImage
  | filledPTX
deriving DecidableEq, Repr

/-- The library calls made by the drivers. -/
inductive Call where
  | PTXReader_Read (fileName : String)
  | Mask_Read (fileName : String)
  | CompareRegions
  | CreateDepthImage (self : CloudVar)
  | MaskedGradient
  | CreateRGBImage (self : CloudVar)
  | StackImages
  | InpaintingTexture (patchHalfWidth numberOfKNN : Nat)
  | ExtractChannels (channels : List Nat)
  | FillScalarImage
  | SetAllPointsToValid (self : CloudVar)
  | ReplaceDepth (self : CloudVar)
  | ReplaceRGB (self : CloudVar)
  | ReplaceRGBD (self : CloudVar)
  | WritePointCloud (self : CloudVar) (fileName : String)
  | WritePTX (self : CloudVar) (fileName : String)
  | CreateValidityImage (self : CloudVar)
  | Mask_CreateFromImage (holeValue : Nat)
  | CreateRGBDImage (self : CloudVar)
  | WriteImage (fileName : String)
  | SmallHoleFiller_SetKernelRadius (kernelRadius : Nat)
  | SmallHoleFiller_SetDownsampleFactor (downsampleFactor : Nat)
  | SmallHoleFiller_Fill
  | ImageFileReader_Update (fileName : String)
  | CopyConstruct (self source : CloudVar)
  | SmallHoleFiller_Construct
deriving DecidableEq, Repr

/-- One entry of the trace: the call and whether it completed without throwing. -/
structure Event where
  call : Call
  ok : Bool
deriving DecidableEq, Repr

/-- Modelled from the spec: the external collaborators (PTXTools, Mask,
ITKHelpers, PatchBasedInpainting, PoissonEditing, SmallHoleFiller and the ITK
stream operators), none of which is part of the sources.  Each is a function of
the values it is handed and either throws or yields the value it produces; an
operation that works in place yields the new value of the object. -/
structure Env (V : Type) where
  showRegion : Region → String
  parseUnsigned : String → Nat
  PTXReader_Read : String → Except String (PTXImage V)
  Mask_Read : String → Except String Mask
  CreateDepthImage : PTXImage V → Except String (Image V)
  MaskedGradient : Image V → Mask → Except String (Image (Vec V 2))
  CreateRGBImage : PTXImage V → Except String (Image (Vec V 3))
  StackImages : Image (Vec V 3) → Image (Vec V 2) → Except String (Image (Vec V 5))
  InpaintingTexture : Image (Vec V 5) → Mask → Nat → Nat → Except String (Image (Vec V 5))
  ExtractChannels : Image (Vec V 5) → (channels : List Nat) →
    Except String (Image (Vec V channels.length))
  FillScalarImage : Image V → Mask → Image (Vec V 2) → Except String (Image V)
  SetAllPointsToValid : PTXImage V → Except String (PTXImage V)
  ReplaceDepth : PTXImage V → Image V → Except String (PTXImage V)
  ReplaceRGB : PTXImage V → Image (Vec V 3) → Except String (PTXImage V)
  ReplaceRGBD : PTXImage V → Image (Vec V 4) → Except String (PTXImage V)
  WritePointCloud : PTXImage V → String → Except String Unit
  WritePTX : PTXImage V → String → Except String Unit
  CreateValidityImage : PTXImage V → Except String (Image Nat)
  Mask_CreateFromImage : Image Nat → Nat → Except String Mask
  CreateRGBDImage : PTXImage V → Except String (Image (Vec V 4))
  WriteImage : Artifact V → String → Except String Unit
  SmallHoleFiller_Fill : Image (Vec V 4) → Mask → Nat → Nat → Except String (Image (Vec V 4))
  ImageFileReader_Update : String → Except String (Image (Vec V 5))

/-- The local variables of the two `main` functions (`none`: not yet assigned). -/
structure Vars (V : Type) where
  ptxImage : Option (PTXImage V) := none
  mask : Option Mask := none
  depthImage : Option (Image V) := none
  depthGradientImage : Option (Image (Vec V 2)) := none
  rgbImage : Option (Image (Vec V 3)) := none
  rgbDxDyImage : Option (Image (Vec V 5)) := none
  inpaintedDepthGradients : Option (Image (Vec V 2)) := none
  inpaintedRGBImage : Option (Image (Vec V 3)) := none
  inpaintedDepthImage : Option (Image V) := none
  filledPTX : Option (PTXImage V) := none
  invalidMaskImage : Option (Image Nat) := none
  invalidMask : Option Mask := none
  rgbdImage : Option (Image (Vec V 4)) := none
  smallHoleFillerOutput : Option (Image (Vec V 4)) := none

/-- The observable state of a run. -/
structure State (V : Type) where
  cout : String := ""
  cerr : String := ""
  events : List Event := []
  files : List (String × Artifact V) := []
  vars : Vars V := {}

/-- How a run ends: `main` returns a status, or an exception leaves `main`. -/
inductive Outcome where
  | returned (status : Int)
  | threw (what : String)
deriving DecidableEq, Repr

/-- A finished run. -/
structure Run (V : Type) where
  outcome : Outcome
  state : State V

def EXIT_SUCCESS : Int := 0

def EXIT_FAILURE : Int := 1

variable {V : Type}

/-- Append text to the error stream. -/
def State.err (s : State V) (text : String) : State V :=
  { s with cerr := s.cerr ++ text }

/-- Append text to the standard output. -/
def State.out (s : State V) (text : String) : State V :=
  { s with cout := s.cout ++ text }

/-- Log a call and whether it succeeded. -/
def State.log (s : State V) (c : Call) (ok : Bool) : State V :=
  { s with events := s.events ++ [⟨c, ok⟩] }

/-- Record a file that has been written. -/
def State.wrote (s : State V) (fileName : String) (a : Artifact V) : State V :=
  { s with files := s.files ++ [(fileName, a)] }

/-- The message of the region check. -/
def sizeMismatchMessage (env : Env V) (ptxRegion maskRegion : Region) : String :=
  "PTX and mask must be the same size! PTX is " ++ env.showRegion ptxRegion
    ++ " and mask is " ++ env.showRegion maskRegion

/-! ## The collaborators as the specification describes them -/

/-- Modelled from the spec: `MarkAllValid()` of the grid cloud (the PTXTools method
`SetAllPointsToValid`, not part of the sources) sets every cell's validity flag. -/
def MarkAllValid (c : PTXImage V) : PTXImage V :=
  { c with point := fun cell => { c.point cell with valid := true } }

/-- Modelled from the spec: `ReplaceDepth(Raster<1>)` of the grid cloud (PTXTools, not
part of the sources) overwrites the depth of the cells currently marked valid and
leaves the others untouched. -/
def ReplaceDepth (c : PTXImage V) (raster : Image V) : PTXImage V :=
  { c with point := fun cell =>
      if (c.point cell).valid then { c.point cell with depth := raster.pixel cell }
      else c.point cell }

/-- Modelled from the spec: `ReplaceRGB(Raster<3>)` of the grid cloud (PTXTools, not
part of the sources) overwrites the colour of the cells currently marked valid and
leaves the others untouched. -/
def ReplaceRGB (c : PTXImage V) (raster : Image (Vec V 3)) : PTXImage V :=
  { c with point := fun cell =>
      if (c.point cell).valid then { c.point cell with color := raster.pixel cell }
      else c.point cell }

/-- Modelled from the spec: `ReplaceRGBD` of the grid cloud (PTXTools, not part of
the sources): for the cells currently marked valid, channels 0 to 2 of the raster
become the colour and channel 3 the depth. -/
def ReplaceRGBD (c : PTXImage V) (raster : Image (Vec V 4)) : PTXImage V :=
  { c with point := fun cell =>
      if (c.point cell).valid then
        { c.point cell with
          depth := raster.pixel cell 3
          color := fun k => raster.pixel cell (Fin.castLE (by decide) k) }
      else c.point cell }

/-- Modelled from the spec: `DeriveDepthRaster()` of the grid cloud (the PTXTools
method `CreateDepthImage`, not part of the sources): the stored depth of every cell,
whatever its validity. -/
def DeriveDepthRaster (c : PTXImage V) : Image V :=
  { region := c.fullRegion, pixel := fun cell => (c.point cell).depth }

/-- Modelled from the spec: `DeriveRGBRaster()` of the grid cloud (the PTXTools
method `CreateRGBImage`, not part of the sources). -/
def DeriveRGBRaster (c : PTXImage V) : Image (Vec V 3) :=
  { region := c.fullRegion, pixel := fun cell => (c.point cell).color }

/-- Modelled from the spec: `Stack` of the channel compositor (the ITKHelpers function
`StackImages`, not part of the sources) concatenates the channels of its arguments in
the order given; its arguments must have identical dimensions, and handing it rasters
of different dimensions is a fatal precondition violation. -/
def Stack {a b : Nat} (first : Image (Vec V a)) (second : Image (Vec V b)) :
    Except String (Image (Vec V (a + b))) :=
  if first.region = second.region then
    .ok { region := first.region
          pixel := fun cell => Fin.append (first.pixel cell) (second.pixel cell) }
  else
    .error "rasters of different dimensions"

/-- Modelled from the spec: `Extract` of the channel compositor (the ITKHelpers
function `ExtractChannels`, not part of the sources) selects channels by index in the
order given; an index outside `[0, C)` is a caller error. -/
def Extract {n : Nat} (raster : Image (Vec V n)) (channels : List Nat) :
    Except String (Image (Vec V channels.length)) :=
  if h : ∀ i ∈ channels, i < n then
    .ok { region := raster.region
          pixel := fun cell k => raster.pixel cell ⟨channels.get k, h _ (List.get_mem _ _ _)⟩ }
  else
    .error "channel index out of range"

/-! ## Pipeline stages -/

/-- The stages named by the specification of the two pipelines. -/
inductive Stage where
  | Load
  | ValidateRegions
  | DeriveDepth
  | ComputeMaskedGradient
  | DeriveRGB
  | Stack
  | TextureFill
  | Extract (channels : List Nat)
  | ReconstructDepth
  | MarkAllValid
  | ReplaceDepth
  | ReplaceRGB
  | ReplaceRGBD
  | Export
  | ExportOriginal
  | ExportIntermediate
  | ComputeHoleMaskFromCloudValidity
  | DeriveRGBD
  | SmallHoleFill
  | LoadPrecomputedFilledMultiChannelRaster
deriving DecidableEq, Repr

/-- The stage a library call belongs to.  Copy-constructing the cloud is not a
stage.  A write of the assembled cloud `filledPTX` is the final export; every other
write is a diagnostic one, `Original.vtp` being the export of the original. -/
def Call.stage : Call → Option Stage
  | .PTXReader_Read _ => some .Load
  | .Mask_Read _ => some .Load
  | .CompareRegions => some .ValidateRegions
  | .CreateDepthImage _ => some .DeriveDepth
  | .MaskedGradient => some .ComputeMaskedGradient
  | .CreateRGBImage _ => some .DeriveRGB
  | .StackImages => some .Stack
  | .InpaintingTexture _ _ => some .TextureFill
  | .ExtractChannels channels => some (.Extract channels)
  | .FillScalarImage => some .ReconstructDepth
  | .SetAllPointsToValid _ => some .MarkAllValid
  | .ReplaceDepth _ => some .ReplaceDepth
  | .ReplaceRGB _ => some .ReplaceRGB
  | .ReplaceRGBD _ => some .ReplaceRGBD
  | .WritePointCloud .filledPTX _ => some .Export
  | .WritePointCloud .ptxImage fileName =>
    if fileName = "Original.vtp" then some .ExportOriginal else some .ExportIntermediate
  | .WritePTX _ _ => some .Export
  | .CreateValidityImage _ => some .ComputeHoleMaskFromCloudValidity
  | .Mask_CreateFromImage _ => some .ComputeHoleMaskFromCloudValidity
  | .CreateRGBDImage _ => some .DeriveRGBD
  | .WriteImage _ => some .ExportIntermediate
  | .SmallHoleFiller_Construct => some .SmallHoleFill
  | .SmallHoleFiller_SetKernelRadius _ => some .SmallHoleFill
  | .SmallHoleFiller_SetDownsampleFactor _ => some .SmallHoleFill
  | .SmallHoleFiller_Fill => some .SmallHoleFill
  | .ImageFileReader_Update _ => some .LoadPrecomputedFilledMultiChannelRaster
  | .CopyConstruct _ _ => none

/-- Merge consecutive calls of one stage into one invocation of that stage. -/
def collapse : List Stage → List Stage
  | a :: b :: rest => if a = b then collapse (b :: rest) else a :: collapse (b :: rest)
  | l => l

/-- The stages invoked by a run, in order. -/
def stageTrace (events : List Event) : List Stage :=
  collapse (events.filterMap (fun ev => ev.call.stage))

/-! ## Driver computations -/

/-- Where a computation stands: it produced a value, or an exception is in flight. -/
inductive Res (V α : Type) where
  | ok (value : α) (s : State V)
  | threw (what : String) (s : State V)

/-- A driver computation: statements executed in sequence over the run state; an
exception skips every statement that follows it. -/
def Prog (V α : Type) : Type := State V → Res V α

instance : Monad (Prog V) where
  pure a := fun s => .ok a s
  bind m f := fun s =>
    match m s with
    | .ok a s => f a s
    | .threw e s => .threw e s

/-- Make a library call: log it with its result, then continue or propagate. -/
def call {α : Type} (c : Call) (r : Except String α) : Prog V α := fun s =>
  match r with
  | .ok a => .ok a (s.log c true)
  | .error e => .threw e (s.log c false)

/-- Assign local variables. -/
def assign (f : Vars V → Vars V) : Prog V Unit := fun s =>
  .ok () { s with vars := f s.vars }

/-- Write to `std::cout`. -/
def print (text : String) : Prog V Unit := fun s => .ok () (s.out text)

/-- Write to `std::cerr`. -/
def printErr (text : String) : Prog V Unit := fun s => .ok () (s.err text)

/-- Record that a write call has produced a file. -/
def wrote (fileName : String) (a : Artifact V) : Prog V Unit := fun s =>
  .ok () (s.wrote fileName a)

/-- The region comparison `mask->GetLargestPossibleRegion() != ptxImage.GetFullRegion()`
with the `throw std::runtime_error` it guards. -/
def checkRegions (env : Env V) (mask : Mask) (ptxImage : PTXImage V) : Prog V Unit := fun s =>
  if mask.region ≠ ptxImage.fullRegion then
    .threw (sizeMismatchMessage env ptxImage.fullRegion mask.region) (s.log .CompareRegions false)
  else
    .ok () (s.log .CompareRegions true)

/-- The loop `for(int i = 1; i < argc; ++i) std::cerr << argv[i] << " ";`, given
the arguments from `argv[1]` on. -/
def echoArguments : List String → Prog V Unit
  | [] => pure ()
  | arg :: rest => do
    printErr arg
    printErr " "
    echoArguments rest

/-- Run `main` from the initial state. -/
def runMain (body : Prog V Int) : Run V :=
  match body {} with
  | .ok status s => ⟨.returned status, s⟩
  | .threw e s => ⟨.threw e, s⟩

/-! ## The full pipeline: `PointCloudHoleFilling.cpp` -/

namespace PointCloudHoleFilling

/-- The usage line of the full pipeline. -/
def usage : String :=
  "Required arguments: PointCloud.ptx imageMask.mask patchHalfWidth output.png"

/-- The neighbour budget handed to the texture fill. -/
def numberOfKNN : Nat := 100

/-- The body of `main` in `PointCloudHoleFilling.cpp`; `argv` holds the program
name followed by the positional arguments, so `argc` is `argv.length`. -/
def body (env : Env V) (argv : List String) : Prog V Int := do
  -- Verify arguments
  if argv.length ≠ 5 then
    printErr (usage ++ "\n")
    printErr "Input arguments: "
    echoArguments (argv.drop 1)
    return EXIT_FAILURE
  -- Parse arguments
  let ptxFileName := argv.getD 1 ""
  let maskFileName := argv.getD 2 ""
  let patchHalfWidth := env.parseUnsigned (argv.getD 3 "")
  let outputFileName := argv.getD 4 ""
  -- Output arguments
  print ("Reading ptx: " ++ ptxFileName ++ "\n")
  print ("Reading mask: " ++ maskFileName ++ "\n")
  print ("Patch half width: " ++ toString patchHalfWidth ++ "\n")
  print ("Output: " ++ outputFileName ++ "\n")
  -- Read the files
  let ptxImage ← call (.PTXReader_Read ptxFileName) (env.PTXReader_Read ptxFileName)
  assign (fun v => { v with ptxImage := some ptxImage })
  let mask ← call (.Mask_Read maskFileName) (env.Mask_Read maskFileName)
  assign (fun v => { v with mask := some mask })
  checkRegions env mask ptxImage
  let depthImage ← call (.CreateDepthImage .ptxImage) (env.CreateDepthImage ptxImage)
  assign (fun v => { v with depthImage := some depthImage })
  let depthGradientImage ← call .MaskedGradient (env.MaskedGradient depthImage mask)
  assign (fun v => { v with depthGradientImage := some depthGradientImage })
  let rgbImage ← call (.CreateRGBImage .ptxImage) (env.CreateRGBImage ptxImage)
  assign (fun v => { v with rgbImage := some rgbImage })
  -- Construct RGBDxDy image to inpaint
  let rgbDxDyImage ← call .StackImages (env.StackImages rgbImage depthGradientImage)
  assign (fun v => { v with rgbDxDyImage := some rgbDxDyImage })
  -- Inpaint (the image is filled in place)
  let rgbDxDyImage ← call (.InpaintingTexture patchHalfWidth numberOfKNN)
    (env.InpaintingTexture rgbDxDyImage mask patchHalfWidth numberOfKNN)
  assign (fun v => { v with rgbDxDyImage := some rgbDxDyImage })
  -- Extract inpainted depth gradients
  let depthGradientChannels : List Nat := [3, 4]
  let inpaintedDepthGradients ← call (.ExtractChannels depthGradientChannels)
    (env.ExtractChannels rgbDxDyImage depthGradientChannels)
  assign (fun v => { v with inpaintedDepthGradients := some inpaintedDepthGradients })
  -- Extract inpainted RGB image
  let rgbChannels : List Nat := [0, 1, 2]
  let inpaintedRGBImage ← call (.ExtractChannels rgbChannels)
    (env.ExtractChannels rgbDxDyImage rgbChannels)
  assign (fun v => { v with inpaintedRGBImage := some inpaintedRGBImage })
  -- Poisson filling
  let inpaintedDepthImage ← call .FillScalarImage
    (env.FillScalarImage depthImage mask inpaintedDepthGradients)
  assign (fun v => { v with inpaintedDepthImage := some inpaintedDepthImage })
  -- Assemble and write output
  let filledPTX ← call (.CopyConstruct .filledPTX .ptxImage) (.ok ptxImage)
  assign (fun v => { v with filledPTX := some filledPTX })
  let filledPTX ← call (.SetAllPointsToValid .filledPTX) (env.SetAllPointsToValid filledPTX)
  assign (fun v => { v with filledPTX := some filledPTX })
  let filledPTX ← call (.ReplaceDepth .filledPTX) (env.ReplaceDepth filledPTX inpaintedDepthImage)
  assign (fun v => { v with filledPTX := some filledPTX })
  let filledPTX ← call (.ReplaceRGB .filledPTX) (env.ReplaceRGB filledPTX inpaintedRGBImage)
  assign (fun v => { v with filledPTX := some filledPTX })
  call (.WritePointCloud .filledPTX outputFileName) (env.WritePointCloud filledPTX outputFileName)
  wrote outputFileName (.pointSet filledPTX)
  return EXIT_SUCCESS

/-- The function `main` of `PointCloudHoleFilling.cpp`. -/
def main (env : Env V) (argv : List String) : Run V :=
  runMain (body env argv)

end PointCloudHoleFilling

/-! ## The reconstruction-only pipeline: `ReconstructRGBDxDy.cpp` -/

namespace ReconstructRGBDxDy

/-- The usage line of the reconstruction-only pipeline. -/
def usage : String :=
  "Required arguments: PointCloud.ptx imageMask.mask RGBDxDy.mha outputPrefix"

/-- The body of `main` in `ReconstructRGBDxDy.cpp`; `argv` holds the program name
followed by the positional arguments, so `argc` is `argv.length`. -/
def body (env : Env V) (argv : List String) : Prog V Int := do
  -- Verify arguments
  if argv.length ≠ 5 then
    printErr (usage ++ "\n")
    printErr "Input arguments: "
    echoArguments (argv.drop 1)
    return EXIT_FAILURE
  -- Parse arguments
  let ptxFileName := argv.getD 1 ""
  let maskFileName := argv.getD 2 ""
  let RGBDxDyFileName := argv.getD 3 ""
  let outputStem := argv.getD 4 ""
  -- Output arguments
  print ("Reading ptx: " ++ ptxFileName ++ "\n")
  print ("Reading mask: " ++ maskFileName ++ "\n")
  print ("RGBDxDyFileName: " ++ RGBDxDyFileName ++ "\n")
  print ("Output prefix: " ++ outputStem ++ "\n")
  -- Read the files
  let ptxImage ← call (.PTXReader_Read ptxFileName) (env.PTXReader_Read ptxFileName)
  assign (fun v => { v with ptxImage := some ptxImage })
  let mask ← call (.Mask_Read maskFileName) (env.Mask_Read maskFileName)
  assign (fun v => { v with mask := some mask })
  checkRegions env mask ptxImage
  call (.WritePointCloud .ptxImage "Original.vtp") (env.WritePointCloud ptxImage "Original.vtp")
  wrote "Original.vtp" (.pointSet ptxImage)
  -- Fill invalid pixels in the PTX grid: find the invalid pixels
  let invalidMaskImage ← call (.CreateValidityImage .ptxImage) (env.CreateValidityImage ptxImage)
  assign (fun v => { v with invalidMaskImage := some invalidMaskImage })
  let holeValue : Nat := 0
  let invalidMask ← call (.Mask_CreateFromImage holeValue)
    (env.Mask_CreateFromImage invalidMaskImage holeValue)
  assign (fun v => { v with invalidMask := some invalidMask })
  let rgbdImage ← call (.CreateRGBDImage .ptxImage) (env.CreateRGBDImage ptxImage)
  assign (fun v => { v with rgbdImage := some rgbdImage })
  call (.WriteImage "RGBD.mha") (env.WriteImage (.vectorImage 4 rgbdImage) "RGBD.mha")
  wrote "RGBD.mha" (.vectorImage 4 rgbdImage)
  call .SmallHoleFiller_Construct (.ok ())
  let kernelRadius : Nat := 1
  let downsampleFactor : Nat := 1
  call (.SmallHoleFiller_SetKernelRadius kernelRadius) (.ok ())
  call (.SmallHoleFiller_SetDownsampleFactor downsampleFactor) (.ok ())
  let smallHoleFillerOutput ← call .SmallHoleFiller_Fill
    (env.SmallHoleFiller_Fill rgbdImage invalidMask kernelRadius downsampleFactor)
  assign (fun v => { v with smallHoleFillerOutput := some smallHoleFillerOutput })
  call (.WriteImage "Valid.mha") (env.WriteImage (.vectorImage 4 smallHoleFillerOutput) "Valid.mha")
  wrote "Valid.mha" (.vectorImage 4 smallHoleFillerOutput)
  -- This call must come before ReplaceRGBD, because the values are only
  -- replaced for valid pixels!
  let ptxImage ← call (.SetAllPointsToValid .ptxImage) (env.SetAllPointsToValid ptxImage)
  assign (fun v => { v with ptxImage := some ptxImage })
  let ptxImage ← call (.ReplaceRGBD .ptxImage) (env.ReplaceRGBD ptxImage smallHoleFillerOutput)
  assign (fun v => { v with ptxImage := some ptxImage })
  call (.WritePointCloud .ptxImage "Valid.vtp") (env.WritePointCloud ptxImage "Valid.vtp")
  wrote "Valid.vtp" (.pointSet ptxImage)
  -- Read the RGBDxDy image
  let rgbDxDyImage ← call (.ImageFileReader_Update RGBDxDyFileName)
    (env.ImageFileReader_Update RGBDxDyFileName)
  assign (fun v => { v with rgbDxDyImage := some rgbDxDyImage })
  -- Assemble the result: extract inpainted depth gradients
  let depthGradientChannels : List Nat := [3, 4]
  let inpaintedDepthGradients ← call (.ExtractChannels depthGradientChannels)
    (env.ExtractChannels rgbDxDyImage depthGradientChannels)
  assign (fun v => { v with inpaintedDepthGradients := some inpaintedDepthGradients })
  call (.WriteImage "InpaintedDepthGradients.mha")
    (env.WriteImage (.vectorImage 2 inpaintedDepthGradients) "InpaintedDepthGradients.mha")
  wrote "InpaintedDepthGradients.mha" (.vectorImage 2 inpaintedDepthGradients)
  -- Extract inpainted RGB image
  let rgbChannels : List Nat := [0, 1, 2]
  let inpaintedRGBImage ← call (.ExtractChannels rgbChannels)
    (env.ExtractChannels rgbDxDyImage rgbChannels)
  assign (fun v => { v with inpaintedRGBImage := some inpaintedRGBImage })
  call (.WriteImage "InpaintedRGB.png")
    (env.WriteImage (.vectorImage 3 inpaintedRGBImage) "InpaintedRGB.png")
  wrote "InpaintedRGB.png" (.vectorImage 3 inpaintedRGBImage)
  -- Poisson filling
  let depthImage ← call (.CreateDepthImage .ptxImage) (env.CreateDepthImage ptxImage)
  assign (fun v => { v with depthImage := some depthImage })
  let inpaintedDepthImage ← call .FillScalarImage
    (env.FillScalarImage depthImage mask inpaintedDepthGradients)
  assign (fun v => { v with inpaintedDepthImage := some inpaintedDepthImage })
  call (.WriteImage "ReconstructedDepth.mha")
    (env.WriteImage (.scalarImage inpaintedDepthImage) "ReconstructedDepth.mha")
  wrote "ReconstructedDepth.mha" (.scalarImage inpaintedDepthImage)
  -- Assemble and write output
  let filledPTX ← call (.CopyConstruct .filledPTX .ptxImage) (.ok ptxImage)
  assign (fun v => { v with filledPTX := some filledPTX })
  let filledPTX ← call (.SetAllPointsToValid .filledPTX) (env.SetAllPointsToValid filledPTX)
  assign (fun v => { v with filledPTX := some filledPTX })
  let filledPTX ← call (.ReplaceDepth .filledPTX) (env.ReplaceDepth filledPTX inpaintedDepthImage)
  assign (fun v => { v with filledPTX := some filledPTX })
  let filledPTX ← call (.ReplaceRGB .filledPTX) (env.ReplaceRGB filledPTX inpaintedRGBImage)
  assign (fun v => { v with filledPTX := some filledPTX })
  call (.WritePTX .filledPTX (outputStem ++ ".ptx")) (env.WritePTX filledPTX (outputStem ++ ".ptx"))
  wrote (outputStem ++ ".ptx") (.ptx filledPTX)
  call (.WritePointCloud .filledPTX (outputStem ++ ".vtp"))
    (env.WritePointCloud filledPTX (outputStem ++ ".vtp"))
  wrote (outputStem ++ ".vtp") (.pointSet filledPTX)
  return EXIT_SUCCESS

/-- The function `main` of `ReconstructRGBDxDy.cpp`. -/
def main (env : Env V) (argv : List String) : Run V :=
  runMain (body env argv)

end ReconstructRGBDxDy

/-! ## A concrete set of collaborators -/

/-- A 2 x 2 cloud whose cell `(0, 0)` is marked invalid. -/
def sampleCloud : PTXImage Nat where
  fullRegion := ⟨(0, 0), (2, 2)⟩
  point := fun cell =>
    if cell = (0, 0) then { depth := 7, color := fun _ => 9, valid := false }
    else { depth := 5, color := fun _ => 1, valid := true }

/-- A 2 x 2 mask whose only hole is the cell `(1, 1)`. -/
def sampleMask : Mask where
  region := ⟨(0, 0), (2, 2)⟩
  valid := fun cell => decide (cell ≠ (1, 1))

/-- A 3 x 2 mask. -/
def wideMask : Mask where
  region := ⟨(0, 0), (3, 2)⟩
  valid := fun _ => true

/-- A precomputed five-channel raster: channel `k` holds `10 + k` everywhere. -/
def sampleRGBDxDy : Image (Vec Nat 5) where
  region := ⟨(0, 0), (2, 2)⟩
  pixel := fun _ k => 10 + k.val

/-- A three-channel raster: channel `k` holds `10 + k` everywhere. -/
def sampleColour : Image (Vec Nat 3) where
  region := ⟨(0, 0), (2, 2)⟩
  pixel := fun _ k => 10 + k.val

/-- A two-channel raster: channel `k` holds `13 + k` everywhere. -/
def sampleGradient : Image (Vec Nat 2) where
  region := ⟨(0, 0), (2, 2)⟩
  pixel := fun _ k => 13 + k.val

/-- Collaborators that behave as the specification describes them and never fail:
the cloud operations and the channel compositor are the specified ones, the
gradient estimator yields a zero gradient, the texture fill and the small-hole
filler return their input, and the depth reconstructor keeps the depth where the
mask is valid and puts `0` in the hole. -/
def sampleEnv : Env Nat where
  showRegion := fun r => if r.size = (2, 2) then "[2, 2]" else "[3, 2]"
  parseUnsigned := fun _ => 3
  PTXReader_Read := fun _ => .ok sampleCloud
  Mask_Read := fun _ => .ok sampleMask
  CreateDepthImage := fun c => .ok (DeriveDepthRaster c)
  MaskedGradient := fun d _ => .ok { region := d.region, pixel := fun _ _ => 0 }
  CreateRGBImage := fun c => .ok (DeriveRGBRaster c)
  StackImages := fun a b => Stack a b
  InpaintingTexture := fun image _ _ _ => .ok image
  ExtractChannels := fun image channels => Extract image channels
  FillScalarImage := fun d m _ =>
    .ok { region := d.region, pixel := fun cell => if m.valid cell then d.pixel cell else 0 }
  SetAllPointsToValid := fun c => .ok (MarkAllValid c)
  ReplaceDepth := fun c r => .ok (ReplaceDepth c r)
  ReplaceRGB := fun c r => .ok (ReplaceRGB c r)
  ReplaceRGBD := fun c r => .ok (ReplaceRGBD c r)
  WritePointCloud := fun _ _ => .ok ()
  WritePTX := fun _ _ => .ok ()
  CreateValidityImage := fun c =>
    .ok { region := c.fullRegion, pixel := fun cell => if (c.point cell).valid then 255 else 0 }
  Mask_CreateFromImage := fun image holeValue =>
    .ok { region := image.region, valid := fun cell => decide (image.pixel cell ≠ holeValue) }
  CreateRGBDImage := fun c =>
    .ok { region := c.fullRegion
          pixel := fun cell => Fin.append (c.point cell).color (fun (_ : Fin 1) => (c.point cell).depth) }
  WriteImage := fun _ _ => .ok ()
  SmallHoleFiller_Fill := fun image _ _ _ => .ok image
  ImageFileReader_Update := fun _ => .ok sampleRGBDxDy

/-- The same collaborators, except that the mask read is 3 x 2. -/
def mismatchEnv : Env Nat :=
  { sampleEnv with Mask_Read := fun _ => .ok wideMask }

/-- The same collaborators, except that the small-hole filler fails. -/
def failingFillEnv : Env Nat :=
  { sampleEnv with SmallHoleFiller_Fill := fun _ _ _ _ => .error "no valid neighbour" }

/-- The same collaborators, except that the gradient estimator fails. -/
def failingGradientEnv : Env Nat :=
  { sampleEnv with MaskedGradient := fun _ _ => .error "no gradient" }

/-- Five arguments: the program name and four positional arguments. -/
def sampleArgv : List String := ["prog", "cloud.ptx", "hole.mask", "3", "out"]

/-! ## Vocabulary of the claims -/

/-- The text the usage branch echoes for the given arguments: each argument, in the
order given, followed by a blank. -/
def echoed : List String → String
  | [] => ""
  | arg :: rest => arg ++ " " ++ echoed rest

/-- The text `part` occurs in the text `whole`. -/
def Contains (whole part : String) : Prop :=
  ∃ before after : String, whole = before ++ part ++ after

/-! ## The straight-line call sequences -/

/-- The events of a run that completed the first `k` calls of `calls` and, when
there is a call left, failed in the next one. -/
def traceAt (calls : List Call) (k : Nat) : List Event :=
  (calls.take k).map (fun c => ⟨c, true⟩) ++ ((calls.drop k).take 1).map (fun c => ⟨c, false⟩)

/-- The file a call writes, when it is a write. -/
def Call.fileWritten : Call → Option String
  | .WritePointCloud _ fileName => some fileName
  | .WritePTX _ fileName => some fileName
  | .WriteImage fileName => some fileName
  | _ => none

/-- The calls of the full pipeline, in program order. -/
def PointCloudHoleFilling.calls (env : Env V) (ptxFileName maskFileName patchHalfWidth
    outputFileName : String) : List Call :=
  [.PTXReader_Read ptxFileName, .Mask_Read maskFileName, .CompareRegions,
   .CreateDepthImage .ptxImage, .MaskedGradient, .CreateRGBImage .ptxImage, .StackImages,
   .InpaintingTexture (env.parseUnsigned patchHalfWidth) PointCloudHoleFilling.numberOfKNN,
   .ExtractChannels [3, 4], .ExtractChannels [0, 1, 2], .FillScalarImage,
   .CopyConstruct .filledPTX .ptxImage, .SetAllPointsToValid .filledPTX,
   .ReplaceDepth .filledPTX, .ReplaceRGB .filledPTX,
   .WritePointCloud .filledPTX outputFileName]

/-- The calls of the reconstruction-only pipeline, in program order. -/
def ReconstructRGBDxDy.calls (ptxFileName maskFileName RGBDxDyFileName outputStem : String) :
    List Call :=
  [.PTXReader_Read ptxFileName, .Mask_Read maskFileName, .CompareRegions,
   .WritePointCloud .ptxImage "Original.vtp",
   .CreateValidityImage .ptxImage, .Mask_CreateFromImage 0, .CreateRGBDImage .ptxImage,
   .WriteImage "RGBD.mha",
   .SmallHoleFiller_Construct, .SmallHoleFiller_SetKernelRadius 1,
   .SmallHoleFiller_SetDownsampleFactor 1, .SmallHoleFiller_Fill,
   .WriteImage "Valid.mha",
   .SetAllPointsToValid .ptxImage, .ReplaceRGBD .ptxImage,
   .WritePointCloud .ptxImage "Valid.vtp",
   .ImageFileReader_Update RGBDxDyFileName,
   .ExtractChannels [3, 4], .WriteImage "InpaintedDepthGradients.mha",
   .ExtractChannels [0, 1, 2], .WriteImage "InpaintedRGB.png",
   .CreateDepthImage .ptxImage, .FillScalarImage, .WriteImage "ReconstructedDepth.mha",
   .CopyConstruct .filledPTX .ptxImage, .SetAllPointsToValid .filledPTX,
   .ReplaceDepth .filledPTX, .ReplaceRGB .filledPTX,
   .WritePTX .filledPTX (outputStem ++ ".ptx"),
   .WritePointCloud .filledPTX (outputStem ++ ".vtp")]

/-- What every run on `calls` looks like: some number `k` of calls completed, the
next one (if any) failed and ended the run with an exception, the files written are
those of the completed write calls, and the run returns success exactly when no
call is left. -/
def RunShape (calls : List Call) (r : Run V) : Prop :=
  ∃ k, r.state.events = traceAt calls k ∧
    r.state.files.map Prod.fst = (calls.take k).filterMap Call.fileWritten ∧
    if k < calls.length then ∃ e, r.outcome = .threw e else r.outcome = .returned EXIT_SUCCESS

/-! ## Predicates on runs and traces -/

/-- What holds of every run of the full pipeline with four positional arguments:
the shape of the trace, the loaded cloud is never changed, and a region check that
finds equal regions is logged as passed. -/
def PointCloudHoleFilling.AllRuns (env : Env V) (a1 a2 a3 a4 : String) (r : Run V) : Prop :=
  RunShape (PointCloudHoleFilling.calls env a1 a2 a3 a4) r ∧
  r.state.vars.ptxImage = (env.PTXReader_Read a1).toOption ∧
  ((∃ ptx mask, env.PTXReader_Read a1 = .ok ptx ∧ env.Mask_Read a2 = .ok mask ∧
      mask.region = ptx.fullRegion) → ⟨.CompareRegions, true⟩ ∈ r.state.events)

/-- The data flow of a completed run of the full pipeline: what each call was
handed and what it produced. -/
def PointCloudHoleFilling.Flow (env : Env V) (a1 a2 a3 a4 : String) (r : Run V) : Prop :=
  ∃ (ptxImage : PTXImage V) (mask : Mask) (depthImage : Image V)
    (depthGradientImage : Image (Vec V 2)) (rgbImage : Image (Vec V 3))
    (stacked rgbDxDyImage : Image (Vec V 5)) (inpaintedDepthGradients : Image (Vec V 2))
    (inpaintedRGBImage : Image (Vec V 3)) (inpaintedDepthImage : Image V)
    (marked withDepth filledPTX : PTXImage V),
    env.PTXReader_Read a1 = .ok ptxImage ∧
    env.Mask_Read a2 = .ok mask ∧
    mask.region = ptxImage.fullRegion ∧
    env.CreateDepthImage ptxImage = .ok depthImage ∧
    env.MaskedGradient depthImage mask = .ok depthGradientImage ∧
    env.CreateRGBImage ptxImage = .ok rgbImage ∧
    env.StackImages rgbImage depthGradientImage = .ok stacked ∧
    env.InpaintingTexture stacked mask (env.parseUnsigned a3)
      PointCloudHoleFilling.numberOfKNN = .ok rgbDxDyImage ∧
    env.ExtractChannels rgbDxDyImage [3, 4] = .ok inpaintedDepthGradients ∧
    env.ExtractChannels rgbDxDyImage [0, 1, 2] = .ok inpaintedRGBImage ∧
    env.FillScalarImage depthImage mask inpaintedDepthGradients = .ok inpaintedDepthImage ∧
    env.SetAllPointsToValid ptxImage = .ok marked ∧
    env.ReplaceDepth marked inpaintedDepthImage = .ok withDepth ∧
    env.ReplaceRGB withDepth inpaintedRGBImage = .ok filledPTX ∧
    r.state.vars =
      { ptxImage := some ptxImage, mask := some mask, depthImage := some depthImage,
        depthGradientImage := some depthGradientImage, rgbImage := some rgbImage,
        rgbDxDyImage := some rgbDxDyImage,
        inpaintedDepthGradients := some inpaintedDepthGradients,
        inpaintedRGBImage := some inpaintedRGBImage,
        inpaintedDepthImage := some inpaintedDepthImage, filledPTX := some filledPTX } ∧
    r.state.files = [(a4, .pointSet filledPTX)]

/-- What holds of every run of the reconstruction-only pipeline with four positional
arguments: the shape of the trace, and a region check that finds equal regions is
logged as passed. -/
def ReconstructRGBDxDy.AllRuns (env : Env V) (a1 a2 a3 a4 : String) (r : Run V) : Prop :=
  RunShape (ReconstructRGBDxDy.calls a1 a2 a3 a4) r ∧
  ((∃ ptx mask, env.PTXReader_Read a1 = .ok ptx ∧ env.Mask_Read a2 = .ok mask ∧
      mask.region = ptx.fullRegion) → ⟨.CompareRegions, true⟩ ∈ r.state.events)

/-- The data flow of a completed run of the reconstruction-only pipeline: what each
call was handed and what it produced. -/
def ReconstructRGBDxDy.Flow (env : Env V) (a1 a2 a3 a4 : String) (r : Run V) : Prop :=
  ∃ (ptxImage : PTXImage V) (mask : Mask) (invalidMaskImage : Image Nat) (invalidMask : Mask)
    (rgbdImage smallHoleFillerOutput : Image (Vec V 4)) (allValid validPTX : PTXImage V)
    (rgbDxDyImage : Image (Vec V 5)) (inpaintedDepthGradients : Image (Vec V 2))
    (inpaintedRGBImage : Image (Vec V 3)) (depthImage inpaintedDepthImage : Image V)
    (marked withDepth filledPTX : PTXImage V),
    env.PTXReader_Read a1 = .ok ptxImage ∧
    env.Mask_Read a2 = .ok mask ∧
    mask.region = ptxImage.fullRegion ∧
    env.CreateValidityImage ptxImage = .ok invalidMaskImage ∧
    env.Mask_CreateFromImage invalidMaskImage 0 = .ok invalidMask ∧
    env.CreateRGBDImage ptxImage = .ok rgbdImage ∧
    env.SmallHoleFiller_Fill rgbdImage invalidMask 1 1 = .ok smallHoleFillerOutput ∧
    env.SetAllPointsToValid ptxImage = .ok allValid ∧
    env.ReplaceRGBD allValid smallHoleFillerOutput = .ok validPTX ∧
    env.ImageFileReader_Update a3 = .ok rgbDxDyImage ∧
    env.ExtractChannels rgbDxDyImage [3, 4] = .ok inpaintedDepthGradients ∧
    env.ExtractChannels rgbDxDyImage [0, 1, 2] = .ok inpaintedRGBImage ∧
    env.CreateDepthImage validPTX = .ok depthImage ∧
    env.FillScalarImage depthImage mask inpaintedDepthGradients = .ok inpaintedDepthImage ∧
    env.SetAllPointsToValid validPTX = .ok marked ∧
    env.ReplaceDepth marked inpaintedDepthImage = .ok withDepth ∧
    env.ReplaceRGB withDepth inpaintedRGBImage = .ok filledPTX ∧
    r.state.vars =
      { ptxImage := some validPTX, mask := some mask, depthImage := some depthImage,
        rgbDxDyImage := some rgbDxDyImage,
        inpaintedDepthGradients := some inpaintedDepthGradients,
        inpaintedRGBImage := some inpaintedRGBImage,
        inpaintedDepthImage := some inpaintedDepthImage, filledPTX := some filledPTX,
        invalidMaskImage := some invalidMaskImage, invalidMask := some invalidMask,
        rgbdImage := some rgbdImage, smallHoleFillerOutput := some smallHoleFillerOutput } ∧
    r.state.files =
      [("Original.vtp", .pointSet ptxImage), ("RGBD.mha", .vectorImage 4 rgbdImage),
       ("Valid.mha", .vectorImage 4 smallHoleFillerOutput), ("Valid.vtp", .pointSet validPTX),
       ("InpaintedDepthGradients.mha", .vectorImage 2 inpaintedDepthGradients),
       ("InpaintedRGB.png", .vectorImage 3 inpaintedRGBImage),
       ("ReconstructedDepth.mha", .scalarImage inpaintedDepthImage),
       (a4 ++ ".ptx", .ptx filledPTX), (a4 ++ ".vtp", .pointSet filledPTX)]

/-- The stages of the full pipeline, in the order of the specification. -/
def PointCloudHoleFilling.stages : List Stage :=
  [.Load, .ValidateRegions, .DeriveDepth, .ComputeMaskedGradient, .DeriveRGB, .Stack,
   .TextureFill, .Extract [3, 4], .Extract [0, 1, 2], .ReconstructDepth, .MarkAllValid,
   .ReplaceDepth, .ReplaceRGB, .Export]

/-- The stages of the reconstruction-only pipeline as the program invokes them: the
listed ones and the diagnostic writes of `RGBD.mha`, `InpaintedDepthGradients.mha`,
`InpaintedRGB.png` and `ReconstructedDepth.mha`. -/
def ReconstructRGBDxDy.stages : List Stage :=
  [.Load, .ValidateRegions, .ExportOriginal, .ComputeHoleMaskFromCloudValidity, .DeriveRGBD,
   .ExportIntermediate, .SmallHoleFill, .ExportIntermediate, .MarkAllValid, .ReplaceRGBD,
   .ExportIntermediate, .LoadPrecomputedFilledMultiChannelRaster, .Extract [3, 4],
   .ExportIntermediate, .Extract [0, 1, 2], .ExportIntermediate, .DeriveDepth,
   .ReconstructDepth, .ExportIntermediate, .MarkAllValid, .ReplaceDepth, .ReplaceRGB, .Export]

/-- The diagnostic files the reconstruction-only pipeline has written when it reaches
the small-hole fill, the load of the precomputed raster, or the depth reconstruction. -/
def ReconstructRGBDxDy.writtenBefore : Call → List String
  | .SmallHoleFiller_Fill => ["Original.vtp", "RGBD.mha"]
  | .ImageFileReader_Update _ => ["Original.vtp", "RGBD.mha", "Valid.mha", "Valid.vtp"]
  | .FillScalarImage =>
    ["Original.vtp", "RGBD.mha", "Valid.mha", "Valid.vtp", "InpaintedDepthGradients.mha",
     "InpaintedRGB.png"]
  | _ => []

/-- The cloud a call changes in place, when it changes one. -/
def Call.mutates : Call → Option CloudVar
  | .SetAllPointsToValid x => some x
  | .ReplaceDepth x => some x
  | .ReplaceRGB x => some x
  | .ReplaceRGBD x => some x
  | _ => none

/-- Scan a trace for the ordering contract of the Replace calls.  `marked` holds the
clouds on which `SetAllPointsToValid` has succeeded since their validity flags were
last set from elsewhere (read from a file, or copied from another cloud); the result
is `true` when every Replace call is made on a cloud that is in `marked`. -/
def replacesOnMarked : List CloudVar → List Event → Bool
  | _, [] => true
  | marked, ev :: rest =>
    match ev.call with
    | .SetAllPointsToValid x => replacesOnMarked (if ev.ok then x :: marked else marked) rest
    | .PTXReader_Read _ => replacesOnMarked (marked.filter (fun y => y ≠ .ptxImage)) rest
    | .CopyConstruct x _ => replacesOnMarked (marked.filter (fun y => y ≠ x)) rest
    | .ReplaceDepth x => marked.contains x && replacesOnMarked marked rest
    | .ReplaceRGB x => marked.contains x && replacesOnMarked marked rest
    | .ReplaceRGBD x => marked.contains x && replacesOnMarked marked rest
    | _ => replacesOnMarked marked rest

/-- Scan a trace for the copy-then-mutate pattern.  `copied` tells whether the loaded
cloud has been copied into `filledPTX`; the result is `true` when every call that
changes a cloud comes after the copy and changes the copy. -/
def changesOnlyTheCopy : Bool → List Event → Bool
  | _, [] => true
  | copied, ev :: rest =>
    match ev.call with
    | .CopyConstruct .filledPTX .ptxImage => changesOnlyTheCopy true rest
    | c =>
      (match c.mutates with
        | none => true
        | some x => copied && decide (x = .filledPTX)) && changesOnlyTheCopy copied rest

/-- The events that follow the copy of the loaded cloud into `filledPTX`. -/
def afterCopy : List Event → List Event
  | [] => []
  | ev :: rest =>
    if ev.call = .CopyConstruct .filledPTX .ptxImage then rest else afterCopy rest

/-! ## Stepping through a driver -/

section Steps

variable {α β : Type}

@[simp]
theorem bind_run (m : Prog V α) (f : α → Prog V β) (s : State V) :
    (m >>= f) s = match m s with
      | .ok a s => f a s
      | .threw e s => .threw e s := rfl

@[simp]
theorem pure_run (a : α) (s : State V) : (pure a : Prog V α) s = .ok a s := rfl

@[simp]
theorem call_ok (c : Call) (a : α) (s : State V) :
    call c (.ok a) s = .ok a (s.log c true) := rfl

@[simp]
theorem call_error (c : Call) (e : String) (s : State V) :
    (call c (.error e : Except String α)) s = .threw e (s.log c false) := rfl

@[simp]
theorem assign_run (f : Vars V → Vars V) (s : State V) :
    assign f s = .ok () { s with vars := f s.vars } := rfl

@[simp]
theorem print_run (t : String) (s : State V) : print t s = .ok () (s.out t) := rfl

@[simp]
theorem printErr_run (t : String) (s : State V) :
    printErr t s = .ok () (s.err t) := rfl

@[simp]
theorem wrote_run (f : String) (a : Artifact V) (s : State V) :
    wrote f a s = .ok () (s.wrote f a) := rfl

end Steps

/-! ## Every run of a driver, and the data flow of a completed run -/

theorem PointCloudHoleFilling.full_all_runs (env : Env V) (a0 a1 a2 a3 a4 : String) :
    PointCloudHoleFilling.AllRuns env a1 a2 a3 a4
      (PointCloudHoleFilling.main env [a0, a1, a2, a3, a4]) := by
  simp only [PointCloudHoleFilling.main, PointCloudHoleFilling.body, runMain]
  simp [checkRegions, State.log, State.out, State.wrote]
  cases h1 : env.PTXReader_Read a1 with
  | error e =>
    simp [checkRegions, State.log, State.out, State.wrote]
    exact ⟨⟨0, rfl, rfl, by simp [PointCloudHoleFilling.calls]⟩, by rw [h1]; rfl,
      by rintro ⟨p, m, hp, hm, hr⟩; simp_all⟩
  | ok ptxImage =>
  simp [checkRegions, State.log, State.out, State.wrote]
  cases h2 : env.Mask_Read a2 with
  | error e =>
    simp [checkRegions, State.log, State.out, State.wrote]
    exact ⟨⟨1, rfl, rfl, by simp [PointCloudHoleFilling.calls]⟩, by rw [h1]; rfl,
      by rintro ⟨p, m, hp, hm, hr⟩; simp_all⟩
  | ok mask =>
  simp [checkRegions, State.log, State.out, State.wrote]
  by_cases hreg : mask.region = ptxImage.fullRegion
  case neg =>
    simp [hreg, checkRegions, State.log, State.out, State.wrote]
    exact ⟨⟨2, rfl, rfl, by simp [PointCloudHoleFilling.calls]⟩, by rw [h1]; rfl,
      by rintro ⟨p, m, hp, hm, hr⟩; simp_all⟩
  simp [hreg, checkRegions, State.log, State.out, State.wrote]
  cases h3 : env.CreateDepthImage ptxImage with
  | error e =>
    simp [checkRegions, State.log, State.out, State.wrote]
    exact ⟨⟨3, rfl, rfl, by simp [PointCloudHoleFilling.calls]⟩, by rw [h1]; rfl,
      by rintro ⟨p, m, hp, hm, hr⟩; simp_all⟩
  | ok depthImage =>
  simp [checkRegions, State.log, State.out, State.wrote]
  cases h4 : env.MaskedGradient depthImage mask with
  | error e =>
    simp [checkRegions, State.log, State.out, State.wrote]
    exact ⟨⟨4, rfl, rfl, by simp [PointCloudHoleFilling.calls]⟩, by rw [h1]; rfl,
      by rintro ⟨p, m, hp, hm, hr⟩; simp_all⟩
  | ok depthGradientImage =>
  simp [checkRegions, State.log, State.out, State.wrote]
  cases h5 : env.CreateRGBImage ptxImage with
  | error e =>
    simp [checkRegions, State.log, State.out, State.wrote]
    exact ⟨⟨5, rfl, rfl, by simp [PointCloudHoleFilling.calls]⟩, by rw [h1]; rfl,
      by rintro ⟨p, m, hp, hm, hr⟩; simp_all⟩
  | ok rgbImage =>
  simp [checkRegions, State.log, State.out, State.wrote]
  cases h6 : env.StackImages rgbImage depthGradientImage with
  | error e =>
    simp [checkRegions, State.log, State.out, State.wrote]
    exact ⟨⟨6, rfl, rfl, by simp [PointCloudHoleFilling.calls]⟩, by rw [h1]; rfl,
      by rintro ⟨p, m, hp, hm, hr⟩; simp_all⟩
  | ok stacked =>
  simp [checkRegions, State.log, State.out, State.wrote]
  cases h7 : env.InpaintingTexture stacked mask (env.parseUnsigned a3) PointCloudHoleFilling.numberOfKNN with
  | error e =>
    simp [checkRegions, State.log, State.out, State.wrote]
    exact ⟨⟨7, rfl, rfl, by simp [PointCloudHoleFilling.calls]⟩, by rw [h1]; rfl,
      by rintro ⟨p, m, hp, hm, hr⟩; simp_all⟩
  | ok rgbDxDyImage =>
  simp [checkRegions, State.log, State.out, State.wrote]
  cases h8 : env.ExtractChannels rgbDxDyImage [3, 4] with
  | error e =>
    simp [checkRegions, State.log, State.out, State.wrote]
    exact ⟨⟨8, rfl, rfl, by simp [PointCloudHoleFilling.calls]⟩, by rw [h1]; rfl,
      by rintro ⟨p, m, hp, hm, hr⟩; simp_all⟩
  | ok inpaintedDepthGradients =>
  simp [checkRegions, State.log, State.out, State.wrote]
  cases h9 : env.ExtractChannels rgbDxDyImage [0, 1, 2] with
  | error e =>
    simp [checkRegions, State.log, State.out, State.wrote]
    exact ⟨⟨9, rfl, rfl, by simp [PointCloudHoleFilling.calls]⟩, by rw [h1]; rfl,
      by rintro ⟨p, m, hp, hm, hr⟩; simp_all⟩
  | ok inpaintedRGBImage =>
  simp [checkRegions, State.log, State.out, State.wrote]
  cases h10 : env.FillScalarImage depthImage mask inpaintedDepthGradients with
  | error e =>
    simp [checkRegions, State.log, State.out, State.wrote]
    exact ⟨⟨10, rfl, rfl, by simp [PointCloudHoleFilling.calls]⟩, by rw [h1]; rfl,
      by rintro ⟨p, m, hp, hm, hr⟩; simp_all⟩
  | ok inpaintedDepthImage =>
  simp [checkRegions, State.log, State.out, State.wrote]
  cases h12 : env.SetAllPointsToValid ptxImage with
  | error e =>
    simp [checkRegions, State.log, State.out, State.wrote]
    exact ⟨⟨12, rfl, rfl, by simp [PointCloudHoleFilling.calls]⟩, by rw [h1]; rfl,
      by rintro ⟨p, m, hp, hm, hr⟩; simp_all⟩
  | ok marked =>
  simp [checkRegions, State.log, State.out, State.wrote]
  cases h13 : env.ReplaceDepth marked inpaintedDepthImage with
  | error e =>
    simp [checkRegions, State.log, State.out, State.wrote]
    exact ⟨⟨13, rfl, rfl, by simp [PointCloudHoleFilling.calls]⟩, by rw [h1]; rfl,
      by rintro ⟨p, m, hp, hm, hr⟩; simp_all⟩
  | ok withDepth =>
  simp [checkRegions, State.log, State.out, State.wrote]
  cases h14 : env.ReplaceRGB withDepth inpaintedRGBImage with
  | error e =>
    simp [checkRegions, State.log, State.out, State.wrote]
    exact ⟨⟨14, rfl, rfl, by simp [PointCloudHoleFilling.calls]⟩, by rw [h1]; rfl,
      by rintro ⟨p, m, hp, hm, hr⟩; simp_all⟩
  | ok filledPTX =>
  simp [checkRegions, State.log, State.out, State.wrote]
  cases h15 : env.WritePointCloud filledPTX a4 with
  | error e =>
    simp [checkRegions, State.log, State.out, State.wrote]
    exact ⟨⟨15, rfl, rfl, by simp [PointCloudHoleFilling.calls]⟩, by rw [h1]; rfl,
      by rintro ⟨p, m, hp, hm, hr⟩; simp_all⟩
  | ok done =>
  simp [checkRegions, State.log, State.out, State.wrote]
  exact ⟨⟨16, rfl, rfl, by simp [PointCloudHoleFilling.calls]⟩, by rw [h1]; rfl,
    by rintro ⟨p, m, hp, hm, hr⟩; simp_all⟩

theorem PointCloudHoleFilling.full_flow (env : Env V) (a0 a1 a2 a3 a4 : String) (status : Int)
    (h : (PointCloudHoleFilling.main env [a0, a1, a2, a3, a4]).outcome = .returned status) :
    PointCloudHoleFilling.Flow env a1 a2 a3 a4
      (PointCloudHoleFilling.main env [a0, a1, a2, a3, a4]) := by
  revert h
  simp only [PointCloudHoleFilling.main, PointCloudHoleFilling.body, runMain]
  simp [checkRegions, State.log, State.out, State.wrote]
  cases h1 : env.PTXReader_Read a1 with
  | error e =>
    simp [checkRegions, State.log, State.out, State.wrote]
  | ok ptxImage =>
  simp [checkRegions, State.log, State.out, State.wrote]
  cases h2 : env.Mask_Read a2 with
  | error e =>
    simp [checkRegions, State.log, State.out, State.wrote]
  | ok mask =>
  simp [checkRegions, State.log, State.out, State.wrote]
  by_cases hreg : mask.region = ptxImage.fullRegion
  case neg =>
    simp [hreg, checkRegions, State.log, State.out, State.wrote]
  simp [hreg, checkRegions, State.log, State.out, State.wrote]
  cases h3 : env.CreateDepthImage ptxImage with
  | error e =>
    simp [checkRegions, State.log, State.out, State.wrote]
  | ok depthImage =>
  simp [checkRegions, State.log, State.out, State.wrote]
  cases h4 : env.MaskedGradient depthImage mask with
  | error e =>
    simp [checkRegions, State.log, State.out, State.wrote]
  | ok depthGradientImage =>
  simp [checkRegions, State.log, State.out, State.wrote]
  cases h5 : env.CreateRGBImage ptxImage with
  | error e =>
    simp [checkRegions, State.log, State.out, State.wrote]
  | ok rgbImage =>
  simp [checkRegions, State.log, State.out, State.wrote]
  cases h6 : env.StackImages rgbImage depthGradientImage with
  | error e =>
    simp [checkRegions, State.log, State.out, State.wrote]
  | ok stacked =>
  simp [checkRegions, State.log, State.out, State.wrote]
  cases h7 : env.InpaintingTexture stacked mask (env.parseUnsigned a3) PointCloudHoleFilling.numberOfKNN with
  | error e =>
    simp [checkRegions, State.log, State.out, State.wrote]
  | ok rgbDxDyImage =>
  simp [checkRegions, State.log, State.out, State.wrote]
  cases h8 : env.ExtractChannels rgbDxDyImage [3, 4] with
  | error e =>
    simp [checkRegions, State.log, State.out, State.wrote]
  | ok inpaintedDepthGradients =>
  simp [checkRegions, State.log, State.out, State.wrote]
  cases h9 : env.ExtractChannels rgbDxDyImage [0, 1, 2] with
  | error e =>
    simp [checkRegions, State.log, State.out, State.wrote]
  | ok inpaintedRGBImage =>
  simp [checkRegions, State.log, State.out, State.wrote]
  cases h10 : env.FillScalarImage depthImage mask inpaintedDepthGradients with
  | error e =>
    simp [checkRegions, State.log, State.out, State.wrote]
  | ok inpaintedDepthImage =>
  simp [checkRegions, State.log, State.out, State.wrote]
  cases h12 : env.SetAllPointsToValid ptxImage with
  | error e =>
    simp [checkRegions, State.log, State.out, State.wrote]
  | ok marked =>
  simp [checkRegions, State.log, State.out, State.wrote]
  cases h13 : env.ReplaceDepth marked inpaintedDepthImage with
  | error e =>
    simp [checkRegions, State.log, State.out, State.wrote]
  | ok withDepth =>
  simp [checkRegions, State.log, State.out, State.wrote]
  cases h14 : env.ReplaceRGB withDepth inpaintedRGBImage with
  | error e =>
    simp [checkRegions, State.log, State.out, State.wrote]
  | ok filledPTX =>
  simp [checkRegions, State.log, State.out, State.wrote]
  cases h15 : env.WritePointCloud filledPTX a4 with
  | error e =>
    simp [checkRegions, State.log, State.out, State.wrote]
  | ok done =>
  simp [checkRegions, State.log, State.out, State.wrote]
  intro _
  exact ⟨ptxImage, mask, depthImage, depthGradientImage, rgbImage, stacked, rgbDxDyImage,
    inpaintedDepthGradients, inpaintedRGBImage, inpaintedDepthImage, marked, withDepth, filledPTX,
    h1, h2, hreg, h3, h4, h5, h6, h7, h8, h9, h10, h12, h13, h14, rfl, rfl⟩

theorem ReconstructRGBDxDy.recon_all_runs (env : Env V) (a0 a1 a2 a3 a4 : String) :
    ReconstructRGBDxDy.AllRuns env a1 a2 a3 a4
      (ReconstructRGBDxDy.main env [a0, a1, a2, a3, a4]) := by
  simp only [ReconstructRGBDxDy.main, ReconstructRGBDxDy.body, runMain]
  simp [checkRegions, State.log, State.out, State.wrote]
  cases h1 : env.PTXReader_Read a1 with
  | error e =>
    simp [checkRegions, State.log, State.out, State.wrote]
    exact ⟨⟨0, rfl, rfl, by simp [ReconstructRGBDxDy.calls]⟩,
      by rintro ⟨p, m, hp, hm, hr⟩; simp_all⟩
  | ok ptxImage =>
  simp [checkRegions, State.log, State.out, State.wrote]
  cases h2 : env.Mask_Read a2 with
  | error e =>
    simp [checkRegions, State.log, State.out, State.wrote]
    exact ⟨⟨1, rfl, rfl, by simp [ReconstructRGBDxDy.calls]⟩,
      by rintro ⟨p, m, hp, hm, hr⟩; simp_all⟩
  | ok mask =>
  simp [checkRegions, State.log, State.out, State.wrote]
  by_cases hreg : mask.region = ptxImage.fullRegion
  case neg =>
    simp [hreg, checkRegions, State.log, State.out, State.wrote]
    exact ⟨⟨2, rfl, rfl, by simp [ReconstructRGBDxDy.calls]⟩,
      by rintro ⟨p, m, hp, hm, hr⟩; simp_all⟩
  simp [hreg, checkRegions, State.log, State.out, State.wrote]
  cases h3 : env.WritePointCloud ptxImage "Original.vtp" with
  | error e =>
    simp [checkRegions, State.log, State.out, State.wrote]
    exact ⟨⟨3, rfl, rfl, by simp [ReconstructRGBDxDy.calls]⟩,
      by rintro ⟨p, m, hp, hm, hr⟩; simp_all⟩
  | ok w3 =>
  simp [checkRegions, State.log, State.out, State.wrote]
  cases h4 : env.CreateValidityImage ptxImage with
  | error e =>
    simp [checkRegions, State.log, State.out, State.wrote]
    exact ⟨⟨4, rfl, rfl, by simp [ReconstructRGBDxDy.calls]⟩,
      by rintro ⟨p, m, hp, hm, hr⟩; simp_all⟩
  | ok invalidMaskImage =>
  simp [checkRegions, State.log, State.out, State.wrote]
  cases h5 : env.Mask_CreateFromImage invalidMaskImage 0 with
  | error e =>
    simp [checkRegions, State.log, State.out, State.wrote]
    exact ⟨⟨5, rfl, rfl, by simp [ReconstructRGBDxDy.calls]⟩,
      by rintro ⟨p, m, hp, hm, hr⟩; simp_all⟩
  | ok invalidMask =>
  simp [checkRegions, State.log, State.out, State.wrote]
  cases h6 : env.CreateRGBDImage ptxImage with
  | error e =>
    simp [checkRegions, State.log, State.out, State.wrote]
    exact ⟨⟨6, rfl, rfl, by simp [ReconstructRGBDxDy.calls]⟩,
      by rintro ⟨p, m, hp, hm, hr⟩; simp_all⟩
  | ok rgbdImage =>
  simp [checkRegions, State.log, State.out, State.wrote]
  cases h7 : env.WriteImage (.vectorImage 4 rgbdImage) "RGBD.mha" with
  | error e =>
    simp [checkRegions, State.log, State.out, State.wrote]
    exact ⟨⟨7, rfl, rfl, by simp [ReconstructRGBDxDy.calls]⟩,
      by rintro ⟨p, m, hp, hm, hr⟩; simp_all⟩
  | ok w7 =>
  simp [checkRegions, State.log, State.out, State.wrote]
  cases h11 : env.SmallHoleFiller_Fill rgbdImage invalidMask 1 1 with
  | error e =>
    simp [checkRegions, State.log, State.out, State.wrote]
    exact ⟨⟨11, rfl, rfl, by simp [ReconstructRGBDxDy.calls]⟩,
      by rintro ⟨p, m, hp, hm, hr⟩; simp_all⟩
  | ok smallHoleFillerOutput =>
  simp [checkRegions, State.log, State.out, State.wrote]
  cases h12 : env.WriteImage (.vectorImage 4 smallHoleFillerOutput) "Valid.mha" with
  | error e =>
    simp [checkRegions, State.log, State.out, State.wrote]
    exact ⟨⟨12, rfl, rfl, by simp [ReconstructRGBDxDy.calls]⟩,
      by rintro ⟨p, m, hp, hm, hr⟩; simp_all⟩
  | ok w12 =>
  simp [checkRegions, State.log, State.out, State.wrote]
  cases h13 : env.SetAllPointsToValid ptxImage with
  | error e =>
    simp [checkRegions, State.log, State.out, State.wrote]
    exact ⟨⟨13, rfl, rfl, by simp [ReconstructRGBDxDy.calls]⟩,
      by rintro ⟨p, m, hp, hm, hr⟩; simp_all⟩
  | ok allValid =>
  simp [checkRegions, State.log, State.out, State.wrote]
  cases h14 : env.ReplaceRGBD allValid smallHoleFillerOutput with
  | error e =>
    simp [checkRegions, State.log, State.out, State.wrote]
    exact ⟨⟨14, rfl, rfl, by simp [ReconstructRGBDxDy.calls]⟩,
      by rintro ⟨p, m, hp, hm, hr⟩; simp_all⟩
  | ok validPTX =>
  simp [checkRegions, State.log, State.out, State.wrote]
  cases h15 : env.WritePointCloud validPTX "Valid.vtp" with
  | error e =>
    simp [checkRegions, State.log, State.out, State.wrote]
    exact ⟨⟨15, rfl, rfl, by simp [ReconstructRGBDxDy.calls]⟩,
      by rintro ⟨p, m, hp, hm, hr⟩; simp_all⟩
  | ok w15 =>
  simp [checkRegions, State.log, State.out, State.wrote]
  cases h16 : env.ImageFileReader_Update a3 with
  | error e =>
    simp [checkRegions, State.log, State.out, State.wrote]
    exact ⟨⟨16, rfl, rfl, by simp [ReconstructRGBDxDy.calls]⟩,
      by rintro ⟨p, m, hp, hm, hr⟩; simp_all⟩
  | ok rgbDxDyImage =>
  simp [checkRegions, State.log, State.out, State.wrote]
  cases h17 : env.ExtractChannels rgbDxDyImage [3, 4] with
  | error e =>
    simp [checkRegions, State.log, State.out, State.wrote]
    exact ⟨⟨17, rfl, rfl, by simp [ReconstructRGBDxDy.calls]⟩,
      by rintro ⟨p, m, hp, hm, hr⟩; simp_all⟩
  | ok inpaintedDepthGradients =>
  simp [checkRegions, State.log, State.out, State.wrote]
  cases h18 : env.WriteImage (.vectorImage 2 inpaintedDepthGradients) "InpaintedDepthGradients.mha" with
  | error e =>
    simp [checkRegions, State.log, State.out, State.wrote]
    exact ⟨⟨18, rfl, rfl, by simp [ReconstructRGBDxDy.calls]⟩,
      by rintro ⟨p, m, hp, hm, hr⟩; simp_all⟩
  | ok w18 =>
  simp [checkRegions, State.log, State.out, State.wrote]
  cases h19 : env.ExtractChannels rgbDxDyImage [0, 1, 2] with
  | error e =>
    simp [checkRegions, State.log, State.out, State.wrote]
    exact ⟨⟨19, rfl, rfl, by simp [ReconstructRGBDxDy.calls]⟩,
      by rintro ⟨p, m, hp, hm, hr⟩; simp_all⟩
  | ok inpaintedRGBImage =>
  simp [checkRegions, State.log, State.out, State.wrote]
  cases h20 : env.WriteImage (.vectorImage 3 inpaintedRGBImage) "InpaintedRGB.png" with
  | error e =>
    simp [checkRegions, State.log, State.out, State.wrote]
    exact ⟨⟨20, rfl, rfl, by simp [ReconstructRGBDxDy.calls]⟩,
      by rintro ⟨p, m, hp, hm, hr⟩; simp_all⟩
  | ok w20 =>
  simp [checkRegions, State.log, State.out, State.wrote]
  cases h21 : env.CreateDepthImage validPTX with
  | error e =>
    simp [checkRegions, State.log, State.out, State.wrote]
    exact ⟨⟨21, rfl, rfl, by simp [ReconstructRGBDxDy.calls]⟩,
      by rintro ⟨p, m, hp, hm, hr⟩; simp_all⟩
  | ok depthImage =>
  simp [checkRegions, State.log, State.out, State.wrote]
  cases h22 : env.FillScalarImage depthImage mask inpaintedDepthGradients with
  | error e =>
    simp [checkRegions, State.log, State.out, State.wrote]
    exact ⟨⟨22, rfl, rfl, by simp [ReconstructRGBDxDy.calls]⟩,
      by rintro ⟨p, m, hp, hm, hr⟩; simp_all⟩
  | ok inpaintedDepthImage =>
  simp [checkRegions, State.log, State.out, State.wrote]
  cases h23 : env.WriteImage (.scalarImage inpaintedDepthImage) "ReconstructedDepth.mha" with
  | error e =>
    simp [checkRegions, State.log, State.out, State.wrote]
    exact ⟨⟨23, rfl, rfl, by simp [ReconstructRGBDxDy.calls]⟩,
      by rintro ⟨p, m, hp, hm, hr⟩; simp_all⟩
  | ok w23 =>
  simp [checkRegions, State.log, State.out, State.wrote]
  cases h25 : env.SetAllPointsToValid validPTX with
  | error e =>
    simp [checkRegions, State.log, State.out, State.wrote]
    exact ⟨⟨25, rfl, rfl, by simp [ReconstructRGBDxDy.calls]⟩,
      by rintro ⟨p, m, hp, hm, hr⟩; simp_all⟩
  | ok marked =>
  simp [checkRegions, State.log, State.out, State.wrote]
  cases h26 : env.ReplaceDepth marked inpaintedDepthImage with
  | error e =>
    simp [checkRegions, State.log, State.out, State.wrote]
    exact ⟨⟨26, rfl, rfl, by simp [ReconstructRGBDxDy.calls]⟩,
      by rintro ⟨p, m, hp, hm, hr⟩; simp_all⟩
  | ok withDepth =>
  simp [checkRegions, State.log, State.out, State.wrote]
  cases h27 : env.ReplaceRGB withDepth inpaintedRGBImage with
  | error e =>
    simp [checkRegions, State.log, State.out, State.wrote]
    exact ⟨⟨27, rfl, rfl, by simp [ReconstructRGBDxDy.calls]⟩,
      by rintro ⟨p, m, hp, hm, hr⟩; simp_all⟩
  | ok filledPTX =>
  simp [checkRegions, State.log, State.out, State.wrote]
  cases h28 : env.WritePTX filledPTX (a4 ++ ".ptx") with
  | error e =>
    simp [checkRegions, State.log, State.out, State.wrote]
    exact ⟨⟨28, rfl, rfl, by simp [ReconstructRGBDxDy.calls]⟩,
      by rintro ⟨p, m, hp, hm, hr⟩; simp_all⟩
  | ok w28 =>
  simp [checkRegions, State.log, State.out, State.wrote]
  cases h29 : env.WritePointCloud filledPTX (a4 ++ ".vtp") with
  | error e =>
    simp [checkRegions, State.log, State.out, State.wrote]
    exact ⟨⟨29, rfl, rfl, by simp [ReconstructRGBDxDy.calls]⟩,
      by rintro ⟨p, m, hp, hm, hr⟩; simp_all⟩
  | ok w29 =>
  simp [checkRegions, State.log, State.out, State.wrote]
  exact ⟨⟨30, rfl, rfl, by simp [ReconstructRGBDxDy.calls]⟩,
    by rintro ⟨p, m, hp, hm, hr⟩; simp_all⟩

theorem ReconstructRGBDxDy.recon_flow (env : Env V) (a0 a1 a2 a3 a4 : String) (status : Int)
    (h : (ReconstructRGBDxDy.main env [a0, a1, a2, a3, a4]).outcome = .returned status) :
    ReconstructRGBDxDy.Flow env a1 a2 a3 a4
      (ReconstructRGBDxDy.main env [a0, a1, a2, a3, a4]) := by
  revert h
  simp only [ReconstructRGBDxDy.main, ReconstructRGBDxDy.body, runMain]
  simp [checkRegions, State.log, State.out, State.wrote]
  cases h1 : env.PTXReader_Read a1 with
  | error e =>
    simp [checkRegions, State.log, State.out, State.wrote]
  | ok ptxImage =>
  simp [checkRegions, State.log, State.out, State.wrote]
  cases h2 : env.Mask_Read a2 with
  | error e =>
    simp [checkRegions, State.log, State.out, State.wrote]
  | ok mask =>
  simp [checkRegions, State.log, State.out, State.wrote]
  by_cases hreg : mask.region = ptxImage.fullRegion
  case neg =>
    simp [hreg, checkRegions, State.log, State.out, State.wrote]
  simp [hreg, checkRegions, State.log, State.out, State.wrote]
  cases h3 : env.WritePointCloud ptxImage "Original.vtp" with
  | error e =>
    simp [checkRegions, State.log, State.out, State.wrote]
  | ok w3 =>
  simp [checkRegions, State.log, State.out, State.wrote]
  cases h4 : env.CreateValidityImage ptxImage with
  | error e =>
    simp [checkRegions, State.log, State.out, State.wrote]
  | ok invalidMaskImage =>
  simp [checkRegions, State.log, State.out, State.wrote]
  cases h5 : env.Mask_CreateFromImage invalidMaskImage 0 with
  | error e =>
    simp [checkRegions, State.log, State.out, State.wrote]
  | ok invalidMask =>
  simp [checkRegions, State.log, State.out, State.wrote]
  cases h6 : env.CreateRGBDImage ptxImage with
  | error e =>
    simp [checkRegions, State.log, State.out, State.wrote]
  | ok rgbdImage =>
  simp [checkRegions, State.log, State.out, State.wrote]
  cases h7 : env.WriteImage (.vectorImage 4 rgbdImage) "RGBD.mha" with
  | error e =>
    simp [checkRegions, State.log, State.out, State.wrote]
  | ok w7 =>
  simp [checkRegions, State.log, State.out, State.wrote]
  cases h11 : env.SmallHoleFiller_Fill rgbdImage invalidMask 1 1 with
  | error e =>
    simp [checkRegions, State.log, State.out, State.wrote]
  | ok smallHoleFillerOutput =>
  simp [checkRegions, State.log, State.out, State.wrote]
  cases h12 : env.WriteImage (.vectorImage 4 smallHoleFillerOutput) "Valid.mha" with
  | error e =>
    simp [checkRegions, State.log, State.out, State.wrote]
  | ok w12 =>
  simp [checkRegions, State.log, State.out, State.wrote]
  cases h13 : env.SetAllPointsToValid ptxImage with
  | error e =>
    simp [checkRegions, State.log, State.out, State.wrote]
  | ok allValid =>
  simp [checkRegions, State.log, State.out, State.wrote]
  cases h14 : env.ReplaceRGBD allValid smallHoleFillerOutput with
  | error e =>
    simp [checkRegions, State.log, State.out, State.wrote]
  | ok validPTX =>
  simp [checkRegions, State.log, State.out, State.wrote]
  cases h15 : env.WritePointCloud validPTX "Valid.vtp" with
  | error e =>
    simp [checkRegions, State.log, State.out, State.wrote]
  | ok w15 =>
  simp [checkRegions, State.log, State.out, State.wrote]
  cases h16 : env.ImageFileReader_Update a3 with
  | error e =>
    simp [checkRegions, State.log, State.out, State.wrote]
  | ok rgbDxDyImage =>
  simp [checkRegions, State.log, State.out, State.wrote]
  cases h17 : env.ExtractChannels rgbDxDyImage [3, 4] with
  | error e =>
    simp [checkRegions, State.log, State.out, State.wrote]
  | ok inpaintedDepthGradients =>
  simp [checkRegions, State.log, State.out, State.wrote]
  cases h18 : env.WriteImage (.vectorImage 2 inpaintedDepthGradients) "InpaintedDepthGradients.mha" with
  | error e =>
    simp [checkRegions, State.log, State.out, State.wrote]
  | ok w18 =>
  simp [checkRegions, State.log, State.out, State.wrote]
  cases h19 : env.ExtractChannels rgbDxDyImage [0, 1, 2] with
  | error e =>
    simp [checkRegions, State.log, State.out, State.wrote]
  | ok inpaintedRGBImage =>
  simp [checkRegions, State.log, State.out, State.wrote]
  cases h20 : env.WriteImage (.vectorImage 3 inpaintedRGBImage) "InpaintedRGB.png" with
  | error e =>
    simp [checkRegions, State.log, State.out, State.wrote]
  | ok w20 =>
  simp [checkRegions, State.log, State.out, State.wrote]
  cases h21 : env.CreateDepthImage validPTX with
  | error e =>
    simp [checkRegions, State.log, State.out, State.wrote]
  | ok depthImage =>
  simp [checkRegions, State.log, State.out, State.wrote]
  cases h22 : env.FillScalarImage depthImage mask inpaintedDepthGradients with
  | error e =>
    simp [checkRegions, State.log, State.out, State.wrote]
  | ok inpaintedDepthImage =>
  simp [checkRegions, State.log, State.out, State.wrote]
  cases h23 : env.WriteImage (.scalarImage inpaintedDepthImage) "ReconstructedDepth.mha" with
  | error e =>
    simp [checkRegions, State.log, State.out, State.wrote]
  | ok w23 =>
  simp [checkRegions, State.log, State.out, State.wrote]
  cases h25 : env.SetAllPointsToValid validPTX with
  | error e =>
    simp [checkRegions, State.log, State.out, State.wrote]
  | ok marked =>
  simp [checkRegions, State.log, State.out, State.wrote]
  cases h26 : env.ReplaceDepth marked inpaintedDepthImage with
  | error e =>
    simp [checkRegions, State.log, State.out, State.wrote]
  | ok withDepth =>
  simp [checkRegions, State.log, State.out, State.wrote]
  cases h27 : env.ReplaceRGB withDepth inpaintedRGBImage with
  | error e =>
    simp [checkRegions, State.log, State.out, State.wrote]
  | ok filledPTX =>
  simp [checkRegions, State.log, State.out, State.wrote]
  cases h28 : env.WritePTX filledPTX (a4 ++ ".ptx") with
  | error e =>
    simp [checkRegions, State.log, State.out, State.wrote]
  | ok w28 =>
  simp [checkRegions, State.log, State.out, State.wrote]
  cases h29 : env.WritePointCloud filledPTX (a4 ++ ".vtp") with
  | error e =>
    simp [checkRegions, State.log, State.out, State.wrote]
  | ok w29 =>
  simp [checkRegions, State.log, State.out, State.wrote]
  intro _
  exact ⟨ptxImage, mask, invalidMaskImage, invalidMask, rgbdImage, smallHoleFillerOutput, allValid,
    validPTX, rgbDxDyImage, inpaintedDepthGradients, inpaintedRGBImage, depthImage,
    inpaintedDepthImage, marked, withDepth, filledPTX,
    h1, h2, hreg, h4, h5, h6, h11, h13, h14, h16, h17, h19, h21, h22, h25, h26, h27, rfl, rfl⟩

/-! ## Facts about traces -/

theorem traceAt_of_lt (calls : List Call) (k : Nat) (h : k < calls.length) :
    traceAt calls k = (calls.take k).map (fun c => ⟨c, true⟩) ++ [⟨calls[k], false⟩] := by
  unfold traceAt
  rw [List.drop_eq_getElem_cons h]
  rfl

theorem traceAt_of_le (calls : List Call) (k : Nat) (h : calls.length ≤ k) :
    traceAt calls k = calls.map (fun c => ⟨c, true⟩) := by
  simp [traceAt, List.take_of_length_le h, List.drop_eq_nil_of_le h]

theorem not_failed_mem_ok (l : List Call) (c : Call) :
    (⟨c, false⟩ : Event) ∉ l.map (fun c => ⟨c, true⟩) := by
  intro h
  obtain ⟨a, _, ha⟩ := List.mem_map.1 h
  cases ha

/-- A failed event of a trace is its last event, fails the call at position `k`, and
every event before it succeeded. -/
theorem traceAt_failed (calls : List Call) (k : Nat) (c : Call)
    (h : (⟨c, false⟩ : Event) ∈ traceAt calls k) :
    ∃ hk : k < calls.length, calls[k] = c ∧
      traceAt calls k = (calls.take k).map (fun c => ⟨c, true⟩) ++ [⟨c, false⟩] := by
  rcases Nat.lt_or_ge k calls.length with hk | hk
  · refine ⟨hk, ?_⟩
    rw [traceAt_of_lt calls k hk] at h ⊢
    rcases List.mem_append.1 h with h | h
    · exact absurd h (not_failed_mem_ok _ _)
    · have hc : c = calls[k] := by simpa using h
      subst hc
      exact ⟨rfl, rfl⟩
  · rw [traceAt_of_le calls k hk] at h
    exact absurd h (not_failed_mem_ok _ _)

/-- A trace without a failed event is the whole call sequence. -/
theorem traceAt_all_ok (calls : List Call) (k : Nat)
    (h : ∀ ev ∈ traceAt calls k, ev.ok = true) :
    calls.length ≤ k ∧ traceAt calls k = calls.map (fun c => ⟨c, true⟩) := by
  rcases Nat.lt_or_ge k calls.length with hk | hk
  · have := h ⟨calls[k], false⟩ (by rw [traceAt_of_lt calls k hk]; simp)
    simp at this
  · exact ⟨hk, traceAt_of_le calls k hk⟩

/-! ## The claims -/

theorem echoArguments_run (l : List String) (s : State V) :
    echoArguments l s = .ok () { s with cerr := s.cerr ++ echoed l } := by
  induction l generalizing s with
  | nil => simp [echoArguments, echoed]
  | cons a l ih => simp [echoArguments, echoed, ih, State.err, String.append_assoc]

/-- C1: with an argument count other than five (`argc != 5`), each driver returns
`EXIT_FAILURE`, which is not the success status, writes to the error stream its line of
required arguments followed by every given argument in the order given, and makes no
library call at all: no file is read and none is written. -/
theorem wrong_argument_count (env : Env V) (argv : List String) (h : argv.length ≠ 5) :
    (PointCloudHoleFilling.main env argv).outcome = .returned EXIT_FAILURE ∧
    (PointCloudHoleFilling.main env argv).state.cerr =
      "Required arguments: PointCloud.ptx imageMask.mask patchHalfWidth output.png\n"
        ++ "Input arguments: " ++ echoed (argv.drop 1) ∧
    (PointCloudHoleFilling.main env argv).state.events = [] ∧
    (PointCloudHoleFilling.main env argv).state.files = [] ∧
    (ReconstructRGBDxDy.main env argv).outcome = .returned EXIT_FAILURE ∧
    (ReconstructRGBDxDy.main env argv).state.cerr =
      "Required arguments: PointCloud.ptx imageMask.mask RGBDxDy.mha outputPrefix\n"
        ++ "Input arguments: " ++ echoed (argv.drop 1) ∧
    (ReconstructRGBDxDy.main env argv).state.events = [] ∧
    (ReconstructRGBDxDy.main env argv).state.files = [] ∧
    EXIT_FAILURE ≠ EXIT_SUCCESS := by
  simp [PointCloudHoleFilling.main, PointCloudHoleFilling.body, ReconstructRGBDxDy.main,
    ReconstructRGBDxDy.body, runMain, h, echoArguments_run, State.err,
    PointCloudHoleFilling.usage, ReconstructRGBDxDy.usage, EXIT_FAILURE, EXIT_SUCCESS]

/-- C1 at three arguments (two positional ones): the echoed text is `a.ptx b.mask `. -/
theorem wrong_argument_count_witness :
    ["prog", "a.ptx", "b.mask"].length ≠ 5 ∧
    echoed (["prog", "a.ptx", "b.mask"].drop 1) = "a.ptx b.mask " ∧
    (PointCloudHoleFilling.main sampleEnv ["prog", "a.ptx", "b.mask"]).outcome
      = .returned EXIT_FAILURE ∧
    (ReconstructRGBDxDy.main sampleEnv ["prog", "a.ptx", "b.mask"]).state.files = [] :=
  have h := wrong_argument_count sampleEnv ["prog", "a.ptx", "b.mask"] (by decide)
  ⟨by decide, by decide, h.1, h.2.2.2.2.2.2.2.1⟩

/-- C2: when the loaded cloud and mask have different regions, each driver ends with
an exception whose message contains the cloud's region and the mask's region; the
trace holds the two reads and the failed check and nothing else, no file has been
written, and the cloud and the mask are as loaded.  When the regions are equal the
check throws nothing and is logged as passed in both drivers. -/
theorem region_mismatch_aborts (env : Env V) (a0 a1 a2 a3 a4 : String)
    (ptx : PTXImage V) (mask : Mask)
    (h1 : env.PTXReader_Read a1 = .ok ptx) (h2 : env.Mask_Read a2 = .ok mask) :
    (mask.region ≠ ptx.fullRegion →
      (∀ r ∈ [PointCloudHoleFilling.main env [a0, a1, a2, a3, a4],
              ReconstructRGBDxDy.main env [a0, a1, a2, a3, a4]],
        r.outcome = .threw (sizeMismatchMessage env ptx.fullRegion mask.region) ∧
        r.state.events =
          [⟨.PTXReader_Read a1, true⟩, ⟨.Mask_Read a2, true⟩, ⟨.CompareRegions, false⟩] ∧
        r.state.files = [] ∧
        r.state.vars = { ptxImage := some ptx, mask := some mask }) ∧
      Contains (sizeMismatchMessage env ptx.fullRegion mask.region)
        (env.showRegion ptx.fullRegion) ∧
      Contains (sizeMismatchMessage env ptx.fullRegion mask.region)
        (env.showRegion mask.region)) ∧
    (mask.region = ptx.fullRegion →
      (∀ s : State V, checkRegions env mask ptx s = .ok () (s.log .CompareRegions true)) ∧
      (⟨.CompareRegions, true⟩ : Event) ∈
        (PointCloudHoleFilling.main env [a0, a1, a2, a3, a4]).state.events ∧
      (⟨.CompareRegions, true⟩ : Event) ∈
        (ReconstructRGBDxDy.main env [a0, a1, a2, a3, a4]).state.events) := by
  refine ⟨fun hne => ⟨?_, ?_, ?_⟩, fun heq => ⟨?_, ?_, ?_⟩⟩
  · simp [PointCloudHoleFilling.main, PointCloudHoleFilling.body, ReconstructRGBDxDy.main,
      ReconstructRGBDxDy.body, runMain, h1, h2, hne, checkRegions, State.log, State.out]
  · exact ⟨"PTX and mask must be the same size! PTX is ",
      " and mask is " ++ env.showRegion mask.region, by
        simp [sizeMismatchMessage, String.append_assoc]⟩
  · exact ⟨"PTX and mask must be the same size! PTX is " ++ env.showRegion ptx.fullRegion
      ++ " and mask is ", "", by simp [sizeMismatchMessage]⟩
  · intro s
    simp [checkRegions, heq]
  · exact (PointCloudHoleFilling.full_all_runs env a0 a1 a2 a3 a4).2.2 ⟨ptx, mask, h1, h2, heq⟩
  · exact (ReconstructRGBDxDy.recon_all_runs env a0 a1 a2 a3 a4).2 ⟨ptx, mask, h1, h2, heq⟩

/-- C2 at a 2 x 2 cloud and a 3 x 2 mask. -/
theorem region_mismatch_aborts_witness :
    (PointCloudHoleFilling.main mismatchEnv sampleArgv).outcome =
      .threw "PTX and mask must be the same size! PTX is [2, 2] and mask is [3, 2]" ∧
    (ReconstructRGBDxDy.main mismatchEnv sampleArgv).state.files = [] :=
  have h := (region_mismatch_aborts mismatchEnv "prog" "cloud.ptx" "hole.mask" "3" "out"
    sampleCloud wideMask rfl rfl).1 (by decide)
  ⟨(h.1 _ (List.mem_cons_self _ _)).1,
   (h.1 _ (List.mem_cons_of_mem _ (List.mem_cons_self _ _))).2.2.1⟩

theorem PointCloudHoleFilling.full_stageTrace_calls (env : Env V) (a1 a2 a3 a4 : String) :
    stageTrace ((PointCloudHoleFilling.calls env a1 a2 a3 a4).map (fun c => ⟨c, true⟩))
      = PointCloudHoleFilling.stages := by
  rfl

theorem ReconstructRGBDxDy.recon_stageTrace_calls (a1 a2 a3 a4 : String) :
    stageTrace ((ReconstructRGBDxDy.calls a1 a2 a3 a4).map (fun c => ⟨c, true⟩))
      = ReconstructRGBDxDy.stages := by
  simp [stageTrace, ReconstructRGBDxDy.calls, ReconstructRGBDxDy.stages, Call.stage, collapse]

/-- C3: in a run of the full pipeline with four positional arguments in which no
invoked call fails, the stages invoked are exactly, in this order, Load,
ValidateRegions, DeriveDepth, ComputeMaskedGradient, DeriveRGB, Stack, TextureFill,
Extract of channels 3 and 4, Extract of channels 0 to 2, ReconstructDepth,
MarkAllValid, ReplaceDepth, ReplaceRGB, Export, each once; the calls made are the
program's call sequence, and the run returns `EXIT_SUCCESS`. -/
theorem full_pipeline_stage_order (env : Env V) (a0 a1 a2 a3 a4 : String)
    (hok : ∀ ev ∈ (PointCloudHoleFilling.main env [a0, a1, a2, a3, a4]).state.events,
      ev.ok = true) :
    stageTrace (PointCloudHoleFilling.main env [a0, a1, a2, a3, a4]).state.events =
      [.Load, .ValidateRegions, .DeriveDepth, .ComputeMaskedGradient, .DeriveRGB, .Stack,
       .TextureFill, .Extract [3, 4], .Extract [0, 1, 2], .ReconstructDepth, .MarkAllValid,
       .ReplaceDepth, .ReplaceRGB, .Export] ∧
    (stageTrace (PointCloudHoleFilling.main env [a0, a1, a2, a3, a4]).state.events).Nodup ∧
    (PointCloudHoleFilling.main env [a0, a1, a2, a3, a4]).state.events.map Event.call =
      PointCloudHoleFilling.calls env a1 a2 a3 a4 ∧
    (PointCloudHoleFilling.main env [a0, a1, a2, a3, a4]).outcome = .returned EXIT_SUCCESS := by
  obtain ⟨⟨k, hev, -, hout⟩, -, -⟩ := PointCloudHoleFilling.full_all_runs env a0 a1 a2 a3 a4
  rw [hev] at hok
  obtain ⟨hk, htr⟩ := traceAt_all_ok _ k hok
  rw [hev, htr, PointCloudHoleFilling.full_stageTrace_calls]
  refine ⟨rfl, by decide, by simp [Function.comp_def], ?_⟩
  rw [if_neg (Nat.not_lt.2 hk)] at hout
  exact hout

/-- C3 with collaborators that never fail. -/
theorem full_pipeline_stage_order_witness :
    (PointCloudHoleFilling.main sampleEnv ["prog", "cloud.ptx", "hole.mask", "3", "out"]).outcome
      = .returned EXIT_SUCCESS :=
  (full_pipeline_stage_order sampleEnv "prog" "cloud.ptx" "hole.mask" "3" "out"
    (by decide)).2.2.2

/-- C4 as stated fails: with collaborators that never fail, no invoked call of the
reconstruction-only pipeline fails and yet the stages invoked are not the listed
ones: `RGBD.mha` is written between DeriveRGBD and SmallHoleFill. -/
theorem reconstruction_listed_stages_counterexample :
    (∀ ev ∈ (ReconstructRGBDxDy.main sampleEnv sampleArgv).state.events, ev.ok = true) ∧
    stageTrace (ReconstructRGBDxDy.main sampleEnv sampleArgv).state.events ≠
      [.Load, .ValidateRegions, .ExportOriginal, .ComputeHoleMaskFromCloudValidity,
       .DeriveRGBD, .SmallHoleFill, .ExportIntermediate, .MarkAllValid, .ReplaceRGBD,
       .ExportIntermediate, .LoadPrecomputedFilledMultiChannelRaster, .Extract [3, 4],
       .Extract [0, 1, 2], .DeriveDepth, .ReconstructDepth, .MarkAllValid, .ReplaceDepth,
       .ReplaceRGB, .Export] ∧
    (stageTrace (ReconstructRGBDxDy.main sampleEnv sampleArgv).state.events).take 7 =
      [.Load, .ValidateRegions, .ExportOriginal, .ComputeHoleMaskFromCloudValidity,
       .DeriveRGBD, .ExportIntermediate, .SmallHoleFill] ∧
    (ReconstructRGBDxDy.main sampleEnv sampleArgv).state.files.map Prod.fst =
      ["Original.vtp", "RGBD.mha", "Valid.mha", "Valid.vtp", "InpaintedDepthGradients.mha",
       "InpaintedRGB.png", "ReconstructedDepth.mha", "out.ptx", "out.vtp"] := by
  decide

/-- C4, amended: in a run of the reconstruction-only pipeline with four positional
arguments in which no invoked call fails, the stages invoked are exactly the listed
ones together with four further diagnostic writes (`RGBD.mha` after DeriveRGBD,
`InpaintedDepthGradients.mha` and `InpaintedRGB.png` after the two extractions,
`ReconstructedDepth.mha` after ReconstructDepth); the texture fill is not among them;
the depth raster is derived from the cloud as ReplaceRGBD left it; and the run
returns `EXIT_SUCCESS`. -/
theorem reconstruction_stage_order (env : Env V) (a0 a1 a2 a3 a4 : String)
    (hok : ∀ ev ∈ (ReconstructRGBDxDy.main env [a0, a1, a2, a3, a4]).state.events,
      ev.ok = true) :
    stageTrace (ReconstructRGBDxDy.main env [a0, a1, a2, a3, a4]).state.events =
      [.Load, .ValidateRegions, .ExportOriginal, .ComputeHoleMaskFromCloudValidity,
       .DeriveRGBD, .ExportIntermediate, .SmallHoleFill, .ExportIntermediate, .MarkAllValid,
       .ReplaceRGBD, .ExportIntermediate, .LoadPrecomputedFilledMultiChannelRaster,
       .Extract [3, 4], .ExportIntermediate, .Extract [0, 1, 2], .ExportIntermediate,
       .DeriveDepth, .ReconstructDepth, .ExportIntermediate, .MarkAllValid, .ReplaceDepth,
       .ReplaceRGB, .Export] ∧
    Stage.TextureFill ∉
      stageTrace (ReconstructRGBDxDy.main env [a0, a1, a2, a3, a4]).state.events ∧
    (ReconstructRGBDxDy.main env [a0, a1, a2, a3, a4]).state.events.map Event.call =
      ReconstructRGBDxDy.calls a1 a2 a3 a4 ∧
    (ReconstructRGBDxDy.main env [a0, a1, a2, a3, a4]).outcome = .returned EXIT_SUCCESS ∧
    (∃ allValid filled validPTX depthImage,
      env.ReplaceRGBD allValid filled = .ok validPTX ∧
      env.CreateDepthImage validPTX = .ok depthImage ∧
      (ReconstructRGBDxDy.main env [a0, a1, a2, a3, a4]).state.vars.depthImage
        = some depthImage) := by
  obtain ⟨⟨k, hev, -, hout⟩, -⟩ := ReconstructRGBDxDy.recon_all_runs env a0 a1 a2 a3 a4
  rw [hev] at hok
  obtain ⟨hk, htr⟩ := traceAt_all_ok _ k hok
  rw [if_neg (Nat.not_lt.2 hk)] at hout
  obtain ⟨ptxImage, mask, invalidMaskImage, invalidMask, rgbdImage, smallHoleFillerOutput,
    allValid, validPTX, rgbDxDyImage, inpaintedDepthGradients, inpaintedRGBImage, depthImage,
    inpaintedDepthImage, marked, withDepth, filledPTX, -, -, -, -, -, -, -, -, h14, -, -, -,
    h21, -, -, -, -, hvars, -⟩ := ReconstructRGBDxDy.recon_flow env a0 a1 a2 a3 a4 _ hout
  rw [hev, htr, ReconstructRGBDxDy.recon_stageTrace_calls]
  refine ⟨rfl, by decide, by simp [Function.comp_def], hout, allValid, smallHoleFillerOutput,
    validPTX, depthImage, h14, h21, ?_⟩
  rw [hvars]

/-- C4, amended, with collaborators that never fail. -/
theorem reconstruction_stage_order_witness :
    (ReconstructRGBDxDy.main sampleEnv ["prog", "cloud.ptx", "hole.mask", "3", "out"]).outcome
      = .returned EXIT_SUCCESS :=
  (reconstruction_stage_order sampleEnv "prog" "cloud.ptx" "hole.mask" "3" "out"
    (by decide)).2.2.2.1

theorem PointCloudHoleFilling.no_file_before_end (env : Env V) (a1 a2 a3 a4 : String) (k : Nat)
    (hk : k < 16) :
    ((PointCloudHoleFilling.calls env a1 a2 a3 a4).take k).filterMap Call.fileWritten = [] := by
  interval_cases k <;> rfl

/-- C5: in the full pipeline with four positional arguments, a call that fails is the
last event of the trace (no later stage is invoked) and the run ends with an
exception; when the failed call belongs to a stage before Export, no file has been
written.  A run that has written a file has written the output file alone, after
every call of the sequence was made and succeeded. -/
theorem full_pipeline_failure_stops (env : Env V) (a0 a1 a2 a3 a4 : String) :
    (∀ c, (⟨c, false⟩ : Event) ∈
        (PointCloudHoleFilling.main env [a0, a1, a2, a3, a4]).state.events →
      (PointCloudHoleFilling.main env [a0, a1, a2, a3, a4]).state.events.getLast?
        = some ⟨c, false⟩ ∧
      (∃ e, (PointCloudHoleFilling.main env [a0, a1, a2, a3, a4]).outcome = .threw e) ∧
      (c.stage ≠ some .Export →
        (PointCloudHoleFilling.main env [a0, a1, a2, a3, a4]).state.files = [])) ∧
    ((PointCloudHoleFilling.main env [a0, a1, a2, a3, a4]).state.files ≠ [] →
      (PointCloudHoleFilling.main env [a0, a1, a2, a3, a4]).state.files.map Prod.fst = [a4] ∧
      (PointCloudHoleFilling.main env [a0, a1, a2, a3, a4]).state.events =
        (PointCloudHoleFilling.calls env a1 a2 a3 a4).map (fun c => ⟨c, true⟩) ∧
      (PointCloudHoleFilling.main env [a0, a1, a2, a3, a4]).outcome
        = .returned EXIT_SUCCESS) := by
  obtain ⟨⟨k, hev, hfiles, hout⟩, -, -⟩ := PointCloudHoleFilling.full_all_runs env a0 a1 a2 a3 a4
  refine ⟨fun c hc => ?_, fun hne => ?_⟩
  · rw [hev] at hc
    obtain ⟨hk, -, htr⟩ := traceAt_failed _ k c hc
    rw [if_pos hk] at hout
    rw [PointCloudHoleFilling.no_file_before_end env a1 a2 a3 a4 k hk] at hfiles
    refine ⟨by rw [hev, htr]; simp, hout, fun _ => List.map_eq_nil_iff.1 hfiles⟩
  · rcases Nat.lt_or_ge k 16 with hk | hk
    · rw [PointCloudHoleFilling.no_file_before_end env a1 a2 a3 a4 k hk] at hfiles
      exact absurd (List.map_eq_nil_iff.1 hfiles) hne
    · have hk : (PointCloudHoleFilling.calls env a1 a2 a3 a4).length ≤ k := hk
      rw [if_neg (Nat.not_lt.2 hk)] at hout
      rw [List.take_of_length_le hk] at hfiles
      exact ⟨hfiles, by rw [hev, traceAt_of_le _ k hk], hout⟩

/-- C5 at a failing gradient estimator: the failed call ends the trace and no file
has been written. -/
theorem full_pipeline_failure_stops_witness :
    (PointCloudHoleFilling.main failingGradientEnv
      ["prog", "cloud.ptx", "hole.mask", "3", "out"]).state.events.getLast?
      = some ⟨.MaskedGradient, false⟩ ∧
    (PointCloudHoleFilling.main failingGradientEnv
      ["prog", "cloud.ptx", "hole.mask", "3", "out"]).state.files = [] :=
  have h := (full_pipeline_failure_stops failingGradientEnv "prog" "cloud.ptx" "hole.mask"
    "3" "out").1 .MaskedGradient (by decide)
  ⟨h.1, h.2.2 (by decide)⟩

/-- C6 as stated fails: when the small-hole filler fails, the run of the
reconstruction-only pipeline ends with its exception and two of the driver's output
files, `Original.vtp` and `RGBD.mha`, have already been written. -/
theorem reconstruction_diagnostics_counterexample :
    (ReconstructRGBDxDy.main failingFillEnv sampleArgv).outcome = .threw "no valid neighbour" ∧
    (⟨.SmallHoleFiller_Fill, false⟩ : Event) ∈
      (ReconstructRGBDxDy.main failingFillEnv sampleArgv).state.events ∧
    (ReconstructRGBDxDy.main failingFillEnv sampleArgv).state.files.map Prod.fst =
      ["Original.vtp", "RGBD.mha"] ∧
    (ReconstructRGBDxDy.main failingFillEnv sampleArgv).state.files.length = 2 := by
  decide

/-- C6, amended: in the reconstruction-only pipeline with four positional arguments,
when the small-hole filler, the load of the precomputed raster or the depth
reconstruction fails, the failed call is the last event (nothing is retried and no
later stage is invoked), it was made exactly once, the run ends with an exception, and
no call of the final export has been made; the files written are exactly the
diagnostic files of the stages that came before the failure. -/
theorem reconstruction_failure_stops (env : Env V) (a0 a1 a2 a3 a4 : String) (c : Call)
    (hc : c ∈ [Call.SmallHoleFiller_Fill, Call.ImageFileReader_Update a3, Call.FillScalarImage])
    (hf : (⟨c, false⟩ : Event) ∈
      (ReconstructRGBDxDy.main env [a0, a1, a2, a3, a4]).state.events) :
    (ReconstructRGBDxDy.main env [a0, a1, a2, a3, a4]).state.events.getLast?
      = some ⟨c, false⟩ ∧
    ((ReconstructRGBDxDy.main env [a0, a1, a2, a3, a4]).state.events.filter
      (fun ev => ev.call = c)).length = 1 ∧
    (∃ e, (ReconstructRGBDxDy.main env [a0, a1, a2, a3, a4]).outcome = .threw e) ∧
    (∀ ev ∈ (ReconstructRGBDxDy.main env [a0, a1, a2, a3, a4]).state.events,
      ev.call.stage ≠ some .Export) ∧
    (ReconstructRGBDxDy.main env [a0, a1, a2, a3, a4]).state.files.map Prod.fst =
      ReconstructRGBDxDy.writtenBefore c := by
  obtain ⟨⟨k, hev, hfiles, hout⟩, -⟩ := ReconstructRGBDxDy.recon_all_runs env a0 a1 a2 a3 a4
  rw [hev] at hf
  obtain ⟨hk, hck, htr⟩ := traceAt_failed _ k c hf
  rw [if_pos hk] at hout
  rw [hev, htr, hfiles]
  refine ⟨by simp, ?_, hout, ?_, ?_⟩ <;>
  · have hk30 : k < 30 := hk
    simp only [List.mem_cons, List.mem_singleton, List.not_mem_nil, or_false] at hc
    rcases hc with rfl | rfl | rfl <;>
    · interval_cases k <;>
        simp [ReconstructRGBDxDy.calls, ReconstructRGBDxDy.writtenBefore, Call.fileWritten,
          Call.stage] at hck ⊢

/-- C6, amended, at a failing small-hole filler. -/
theorem reconstruction_failure_stops_witness :
    (ReconstructRGBDxDy.main failingFillEnv ["prog", "cloud.ptx", "hole.mask", "3", "out"]
      ).state.files.map Prod.fst = ["Original.vtp", "RGBD.mha"] :=
  (reconstruction_failure_stops failingFillEnv "prog" "cloud.ptx" "hole.mask" "3" "out"
    .SmallHoleFiller_Fill (by decide) (by decide)).2.2.2.2

theorem PointCloudHoleFilling.full_trace_checks (env : Env V) (a1 a2 a3 a4 : String) (k : Nat) :
    replacesOnMarked [] (traceAt (PointCloudHoleFilling.calls env a1 a2 a3 a4) k) = true ∧
    changesOnlyTheCopy false (traceAt (PointCloudHoleFilling.calls env a1 a2 a3 a4) k) = true := by
  rcases Nat.lt_or_ge k 16 with hk | hk
  · interval_cases k <;> exact ⟨rfl, rfl⟩
  · have hk : (PointCloudHoleFilling.calls env a1 a2 a3 a4).length ≤ k := hk
    rw [traceAt_of_le _ k hk]
    exact ⟨rfl, rfl⟩

theorem ReconstructRGBDxDy.recon_trace_checks (a1 a2 a3 a4 : String) (k : Nat) :
    replacesOnMarked [] (traceAt (ReconstructRGBDxDy.calls a1 a2 a3 a4) k) = true ∧
    changesOnlyTheCopy true
      (afterCopy (traceAt (ReconstructRGBDxDy.calls a1 a2 a3 a4) k)) = true := by
  rcases Nat.lt_or_ge k 30 with hk | hk
  · interval_cases k <;> exact ⟨rfl, rfl⟩
  · have hk : (ReconstructRGBDxDy.calls a1 a2 a3 a4).length ≤ k := hk
    rw [traceAt_of_le _ k hk]
    exact ⟨rfl, rfl⟩

theorem PointCloudHoleFilling.full_completed (env : Env V) (a0 a1 a2 a3 a4 : String)
    (hok : ∀ ev ∈ (PointCloudHoleFilling.main env [a0, a1, a2, a3, a4]).state.events,
      ev.ok = true) :
    (PointCloudHoleFilling.main env [a0, a1, a2, a3, a4]).state.events =
      (PointCloudHoleFilling.calls env a1 a2 a3 a4).map (fun c => ⟨c, true⟩) ∧
    (PointCloudHoleFilling.main env [a0, a1, a2, a3, a4]).outcome = .returned EXIT_SUCCESS := by
  obtain ⟨⟨k, hev, -, hout⟩, -, -⟩ := PointCloudHoleFilling.full_all_runs env a0 a1 a2 a3 a4
  rw [hev] at hok
  obtain ⟨hk, htr⟩ := traceAt_all_ok _ k hok
  rw [if_neg (Nat.not_lt.2 hk)] at hout
  exact ⟨by rw [hev, htr], hout⟩

theorem ReconstructRGBDxDy.recon_completed (env : Env V) (a0 a1 a2 a3 a4 : String)
    (hok : ∀ ev ∈ (ReconstructRGBDxDy.main env [a0, a1, a2, a3, a4]).state.events,
      ev.ok = true) :
    (ReconstructRGBDxDy.main env [a0, a1, a2, a3, a4]).state.events =
      (ReconstructRGBDxDy.calls a1 a2 a3 a4).map (fun c => ⟨c, true⟩) ∧
    (ReconstructRGBDxDy.main env [a0, a1, a2, a3, a4]).outcome = .returned EXIT_SUCCESS := by
  obtain ⟨⟨k, hev, -, hout⟩, -⟩ := ReconstructRGBDxDy.recon_all_runs env a0 a1 a2 a3 a4
  rw [hev] at hok
  obtain ⟨hk, htr⟩ := traceAt_all_ok _ k hok
  rw [if_neg (Nat.not_lt.2 hk)] at hout
  exact ⟨by rw [hev, htr], hout⟩

/-- C7: in both drivers every Replace call is made on a cloud on which
`SetAllPointsToValid` succeeded earlier, its validity flags not having been set from
elsewhere in between.  Hence, when `SetAllPointsToValid` marks every cell valid and
the Replace operations overwrite the cells marked valid, a run in which no invoked
call fails makes every call of the driver's sequence (the Mark and Replace calls
among them) and returns success; its exported cloud is what `ReplaceRGB` and
`ReplaceDepth` make of the all-valid cloud and of the rasters that `FillScalarImage`
and `ExtractChannels` returned, so every cell is valid, the depth is the reconstructed
depth raster and the colour the extracted RGB raster at every cell; and in the
reconstruction-only driver the cloud after `ReplaceRGBD` carries, at every cell, the
colour and depth of the raster the small-hole filler returned. -/
theorem replace_after_mark_valid (env : Env V) (a0 a1 a2 a3 a4 : String)
    (hMark : ∀ c, env.SetAllPointsToValid c = .ok (MarkAllValid c))
    (hDepth : ∀ c r, env.ReplaceDepth c r = .ok (ReplaceDepth c r))
    (hRGB : ∀ c r, env.ReplaceRGB c r = .ok (ReplaceRGB c r))
    (hRGBD : ∀ c r, env.ReplaceRGBD c r = .ok (ReplaceRGBD c r)) :
    replacesOnMarked []
      (PointCloudHoleFilling.main env [a0, a1, a2, a3, a4]).state.events = true ∧
    replacesOnMarked []
      (ReconstructRGBDxDy.main env [a0, a1, a2, a3, a4]).state.events = true ∧
    ((∀ ev ∈ (PointCloudHoleFilling.main env [a0, a1, a2, a3, a4]).state.events,
        ev.ok = true) →
      (PointCloudHoleFilling.main env [a0, a1, a2, a3, a4]).state.events =
        (PointCloudHoleFilling.calls env a1 a2 a3 a4).map (fun c => ⟨c, true⟩) ∧
      (PointCloudHoleFilling.main env [a0, a1, a2, a3, a4]).outcome
        = .returned EXIT_SUCCESS ∧
      ∃ (loaded : PTXImage V) (mask : Mask) (depth : Image V) (gradient : Image (Vec V 2))
        (rgb : Image (Vec V 3)) (stacked filled : Image (Vec V 5))
        (gradients : Image (Vec V 2)) (RGB : Image (Vec V 3)) (D : Image V)
        (cloud : PTXImage V),
        env.PTXReader_Read a1 = .ok loaded ∧
        env.Mask_Read a2 = .ok mask ∧
        env.CreateDepthImage loaded = .ok depth ∧
        env.MaskedGradient depth mask = .ok gradient ∧
        env.CreateRGBImage loaded = .ok rgb ∧
        env.StackImages rgb gradient = .ok stacked ∧
        env.InpaintingTexture stacked mask (env.parseUnsigned a3)
          PointCloudHoleFilling.numberOfKNN = .ok filled ∧
        env.ExtractChannels filled [3, 4] = .ok gradients ∧
        env.ExtractChannels filled [0, 1, 2] = .ok RGB ∧
        env.FillScalarImage depth mask gradients = .ok D ∧
        cloud = ReplaceRGB (ReplaceDepth (MarkAllValid loaded) D) RGB ∧
        (PointCloudHoleFilling.main env [a0, a1, a2, a3, a4]).state.files
          = [(a4, .pointSet cloud)] ∧
        (PointCloudHoleFilling.main env [a0, a1, a2, a3, a4]).state.vars.filledPTX
          = some cloud ∧
        (PointCloudHoleFilling.main env [a0, a1, a2, a3, a4]).state.vars.inpaintedDepthImage
          = some D ∧
        (PointCloudHoleFilling.main env [a0, a1, a2, a3, a4]).state.vars.inpaintedRGBImage
          = some RGB ∧
        ∀ cell, (cloud.point cell).valid = true ∧ (cloud.point cell).depth = D.pixel cell ∧
          (cloud.point cell).color = RGB.pixel cell) ∧
    ((∀ ev ∈ (ReconstructRGBDxDy.main env [a0, a1, a2, a3, a4]).state.events,
        ev.ok = true) →
      (ReconstructRGBDxDy.main env [a0, a1, a2, a3, a4]).state.events =
        (ReconstructRGBDxDy.calls a1 a2 a3 a4).map (fun c => ⟨c, true⟩) ∧
      (ReconstructRGBDxDy.main env [a0, a1, a2, a3, a4]).outcome = .returned EXIT_SUCCESS ∧
      ∃ (loaded : PTXImage V) (mask : Mask) (invalidMaskImage : Image Nat)
        (invalidMask : Mask) (rgbd small : Image (Vec V 4)) (afterReplace : PTXImage V)
        (raster : Image (Vec V 5)) (gradients : Image (Vec V 2)) (RGB : Image (Vec V 3))
        (depth D : Image V) (cloud : PTXImage V),
        env.PTXReader_Read a1 = .ok loaded ∧
        env.Mask_Read a2 = .ok mask ∧
        env.CreateValidityImage loaded = .ok invalidMaskImage ∧
        env.Mask_CreateFromImage invalidMaskImage 0 = .ok invalidMask ∧
        env.CreateRGBDImage loaded = .ok rgbd ∧
        env.SmallHoleFiller_Fill rgbd invalidMask 1 1 = .ok small ∧
        afterReplace = ReplaceRGBD (MarkAllValid loaded) small ∧
        env.ImageFileReader_Update a3 = .ok raster ∧
        env.ExtractChannels raster [3, 4] = .ok gradients ∧
        env.ExtractChannels raster [0, 1, 2] = .ok RGB ∧
        env.CreateDepthImage afterReplace = .ok depth ∧
        env.FillScalarImage depth mask gradients = .ok D ∧
        cloud = ReplaceRGB (ReplaceDepth (MarkAllValid afterReplace) D) RGB ∧
        (ReconstructRGBDxDy.main env [a0, a1, a2, a3, a4]).state.files =
          [("Original.vtp", .pointSet loaded), ("RGBD.mha", .vectorImage 4 rgbd),
           ("Valid.mha", .vectorImage 4 small), ("Valid.vtp", .pointSet afterReplace),
           ("InpaintedDepthGradients.mha", .vectorImage 2 gradients),
           ("InpaintedRGB.png", .vectorImage 3 RGB),
           ("ReconstructedDepth.mha", .scalarImage D),
           (a4 ++ ".ptx", .ptx cloud), (a4 ++ ".vtp", .pointSet cloud)] ∧
        (ReconstructRGBDxDy.main env [a0, a1, a2, a3, a4]).state.vars.filledPTX
          = some cloud ∧
        (ReconstructRGBDxDy.main env [a0, a1, a2, a3, a4]).state.vars.inpaintedDepthImage
          = some D ∧
        (ReconstructRGBDxDy.main env [a0, a1, a2, a3, a4]).state.vars.inpaintedRGBImage
          = some RGB ∧
        (∀ cell, (cloud.point cell).valid = true ∧ (cloud.point cell).depth = D.pixel cell ∧
          (cloud.point cell).color = RGB.pixel cell) ∧
        (ReconstructRGBDxDy.main env [a0, a1, a2, a3, a4]).state.vars.ptxImage
          = some afterReplace ∧
        (ReconstructRGBDxDy.main env [a0, a1, a2, a3, a4]).state.vars.smallHoleFillerOutput
          = some small ∧
        ∀ cell, (afterReplace.point cell).valid = true ∧
          (afterReplace.point cell).depth = small.pixel cell 3 ∧
          ∀ k : Fin 3, (afterReplace.point cell).color k
            = small.pixel cell (Fin.castLE (by decide) k)) := by
  refine ⟨?_, ?_, fun hok => ?_, fun hok => ?_⟩
  · obtain ⟨⟨k, hev, -, -⟩, -, -⟩ := PointCloudHoleFilling.full_all_runs env a0 a1 a2 a3 a4
    rw [hev]
    exact (PointCloudHoleFilling.full_trace_checks env a1 a2 a3 a4 k).1
  · obtain ⟨⟨k, hev, -, -⟩, -⟩ := ReconstructRGBDxDy.recon_all_runs env a0 a1 a2 a3 a4
    rw [hev]
    exact (ReconstructRGBDxDy.recon_trace_checks a1 a2 a3 a4 k).1
  · obtain ⟨hev, hdone⟩ := PointCloudHoleFilling.full_completed env a0 a1 a2 a3 a4 hok
    obtain ⟨ptxImage, mask, depthImage, depthGradientImage, rgbImage, stacked, rgbDxDyImage,
      inpaintedDepthGradients, inpaintedRGBImage, inpaintedDepthImage, marked, withDepth,
      filledPTX, h1, h2, -, h3, h4, h5, h6, h7, h8, h9, h10, h12, h13, h14, hvars, hfiles⟩ :=
      PointCloudHoleFilling.full_flow env a0 a1 a2 a3 a4 _ hdone
    rw [hMark] at h12
    rw [hDepth] at h13
    rw [hRGB] at h14
    cases h12
    cases h13
    cases h14
    refine ⟨hev, hdone, ptxImage, mask, depthImage, depthGradientImage, rgbImage, stacked,
      rgbDxDyImage, inpaintedDepthGradients, inpaintedRGBImage, inpaintedDepthImage, _,
      h1, h2, h3, h4, h5, h6, h7, h8, h9, h10, rfl, hfiles, by rw [hvars], by rw [hvars],
      by rw [hvars], fun cell => ?_⟩
    simp [ReplaceRGB, ReplaceDepth, MarkAllValid]
  · obtain ⟨hev, hdone⟩ := ReconstructRGBDxDy.recon_completed env a0 a1 a2 a3 a4 hok
    obtain ⟨ptxImage, mask, invalidMaskImage, invalidMask, rgbdImage, smallHoleFillerOutput,
      allValid, validPTX, rgbDxDyImage, inpaintedDepthGradients, inpaintedRGBImage, depthImage,
      inpaintedDepthImage, marked, withDepth, filledPTX, h1, h2, -, h4, h5, h6, h11, h13, h14,
      h16, h17, h19, h21, h22, h25, h26, h27, hvars, hfiles⟩ :=
      ReconstructRGBDxDy.recon_flow env a0 a1 a2 a3 a4 _ hdone
    rw [hMark] at h13 h25
    rw [hRGBD] at h14
    rw [hDepth] at h26
    rw [hRGB] at h27
    cases h13
    cases h14
    cases h25
    cases h26
    cases h27
    refine ⟨hev, hdone, ptxImage, mask, invalidMaskImage, invalidMask, rgbdImage,
      smallHoleFillerOutput, _, rgbDxDyImage, inpaintedDepthGradients, inpaintedRGBImage,
      depthImage, inpaintedDepthImage, _, h1, h2, h4, h5, h6, h11, rfl, h16, h17, h19, h21,
      h22, rfl, hfiles, by rw [hvars], by rw [hvars], by rw [hvars], fun cell => ?_,
      by rw [hvars], by rw [hvars], fun cell => ?_⟩
    · simp [ReplaceRGB, ReplaceDepth, MarkAllValid]
    · simp [ReplaceRGBD, MarkAllValid]

/-- C7 with the specified cloud operations and collaborators that never fail: both
drivers make every call of their sequence and complete; the cloud the full pipeline
exports is all valid; and the cloud the reconstruction-only driver holds after
`ReplaceRGBD` is all valid and carries the small-hole filler's colour and depth. -/
theorem replace_after_mark_valid_witness :
    ((PointCloudHoleFilling.main sampleEnv ["prog", "cloud.ptx", "hole.mask", "3", "out"]
        ).state.events =
        (PointCloudHoleFilling.calls sampleEnv "cloud.ptx" "hole.mask" "3" "out").map
          (fun c => ⟨c, true⟩) ∧
      ∃ (cloud : PTXImage Nat) (D : Image Nat) (RGB : Image (Vec Nat 3)),
        (PointCloudHoleFilling.main sampleEnv ["prog", "cloud.ptx", "hole.mask", "3", "out"]
          ).state.files = [("out", .pointSet cloud)] ∧
        ∀ cell, (cloud.point cell).valid = true ∧ (cloud.point cell).depth = D.pixel cell ∧
          (cloud.point cell).color = RGB.pixel cell) ∧
    ((ReconstructRGBDxDy.main sampleEnv ["prog", "cloud.ptx", "hole.mask", "3", "out"]
        ).state.events =
        (ReconstructRGBDxDy.calls "cloud.ptx" "hole.mask" "3" "out").map
          (fun c => ⟨c, true⟩) ∧
      ∃ (afterReplace : PTXImage Nat) (small : Image (Vec Nat 4)),
        (ReconstructRGBDxDy.main sampleEnv ["prog", "cloud.ptx", "hole.mask", "3", "out"]
          ).state.vars.ptxImage = some afterReplace ∧
        (ReconstructRGBDxDy.main sampleEnv ["prog", "cloud.ptx", "hole.mask", "3", "out"]
          ).state.vars.smallHoleFillerOutput = some small ∧
        ∀ cell, (afterReplace.point cell).valid = true ∧
          (afterReplace.point cell).depth = small.pixel cell 3 ∧
          ∀ k : Fin 3, (afterReplace.point cell).color k
            = small.pixel cell (Fin.castLE (by decide) k)) := by
  have h := replace_after_mark_valid sampleEnv "prog" "cloud.ptx" "hole.mask" "3" "out"
    (fun _ => rfl) (fun _ _ => rfl) (fun _ _ => rfl) (fun _ _ => rfl)
  obtain ⟨hev1, -, loaded, mask, depth, gradient, rgb, stacked, filled, gradients, RGB, D,
    cloud, -, -, -, -, -, -, -, -, -, -, -, hfiles, -, -, -, hcells⟩ := h.2.2.1 (by decide)
  obtain ⟨hev2, -, loaded2, mask2, invalidMaskImage, invalidMask, rgbd, small, afterReplace,
    raster, gradients2, RGB2, depth2, D2, cloud2, -, -, -, -, -, -, -, -, -, -, -, -, -, -, -,
    -, -, -, hptx, hsmall, hafter⟩ := h.2.2.2 (by decide)
  exact ⟨⟨hev1, cloud, D, RGB, hfiles, hcells⟩, hev2, afterReplace, small, hptx, hsmall, hafter⟩

theorem stack_region {a b : Nat} (first : Image (Vec V a)) (second : Image (Vec V b))
    (S : Image (Vec V (a + b))) (h : Stack first second = .ok S) :
    first.region = second.region ∧
    S = { region := first.region
          pixel := fun cell => Fin.append (first.pixel cell) (second.pixel cell) } := by
  unfold Stack at h
  split at h
  · next hreg =>
    cases h
    exact ⟨hreg, rfl⟩
  · cases h

theorem extract_stack_rgb (RGB : Image (Vec V 3)) (G : Image (Vec V 2))
    (S : Image (Vec V 5)) (h : Stack RGB G = .ok S) :
    Extract S [0, 1, 2] = .ok RGB := by
  obtain ⟨-, rfl⟩ := stack_region RGB G S h
  unfold Extract
  rw [dif_pos (by decide)]
  congr 1
  cases RGB with
  | mk region pixel =>
    congr 1
    funext cell (k : Fin 3)
    fin_cases k <;> rfl

theorem extract_stack_gradient (RGB : Image (Vec V 3)) (G : Image (Vec V 2))
    (S : Image (Vec V 5)) (h : Stack RGB G = .ok S) :
    Extract S [3, 4] = .ok G := by
  obtain ⟨hreg, rfl⟩ := stack_region RGB G S h
  unfold Extract
  rw [dif_pos (by decide)]
  congr 1
  cases G with
  | mk region pixel =>
    simp only at hreg ⊢
    subst hreg
    congr 1
    funext cell (k : Fin 2)
    fin_cases k <;> rfl

/-- C8: with `Stack` concatenating the channels of two rasters of identical
dimensions in argument order (and failing on different dimensions) and `Extract`
selecting channels by index, the stack of a 3-channel raster `RGB` and a 2-channel
raster `G` of the same region exists, extracting its channels 0 to 2 gives back `RGB`
and extracting its channels 3 and 4 gives back `G`.  A run of the full pipeline in
which no invoked call fails makes every call of its sequence, hands the texture fill
the stack of the RGB raster (first) and the depth gradient (second), and extracts the
gradient with `[3, 4]` and the colour with `[0, 1, 2]` from the filled raster, so with
a texture fill that changes no cell the extracted rasters are the stacked ones; a run
of the reconstruction-only pipeline in which no invoked call fails extracts with the
same index lists from the precomputed raster, so when that raster is the stack of
`RGB` and `G` the extracted rasters are `RGB` and `G`. -/
theorem channel_round_trip (env : Env V) (a0 a1 a2 a3 a4 : String)
    (hStack : ∀ a b, env.StackImages a b = Stack a b)
    (hExtract : ∀ image channels, env.ExtractChannels image channels = Extract image channels) :
    (∀ (RGB : Image (Vec V 3)) (G : Image (Vec V 2)), RGB.region = G.region →
      ∃ S : Image (Vec V 5), Stack RGB G = .ok S ∧
        Extract S [0, 1, 2] = .ok RGB ∧ Extract S [3, 4] = .ok G) ∧
    (∀ (RGB : Image (Vec V 3)) (G : Image (Vec V 2)), RGB.region ≠ G.region →
      ∃ e, Stack RGB G = .error e) ∧
    ((∀ ev ∈ (PointCloudHoleFilling.main env [a0, a1, a2, a3, a4]).state.events,
        ev.ok = true) →
      (PointCloudHoleFilling.main env [a0, a1, a2, a3, a4]).state.events =
        (PointCloudHoleFilling.calls env a1 a2 a3 a4).map (fun c => ⟨c, true⟩) ∧
      (PointCloudHoleFilling.main env [a0, a1, a2, a3, a4]).outcome
        = .returned EXIT_SUCCESS ∧
      ∃ (loaded : PTXImage V) (mask : Mask) (depth : Image V) (rgb : Image (Vec V 3))
        (gradient : Image (Vec V 2)) (stacked filled : Image (Vec V 5))
        (outRGB : Image (Vec V 3)) (outGradient : Image (Vec V 2)),
        env.PTXReader_Read a1 = .ok loaded ∧
        env.Mask_Read a2 = .ok mask ∧
        env.CreateDepthImage loaded = .ok depth ∧
        env.MaskedGradient depth mask = .ok gradient ∧
        env.CreateRGBImage loaded = .ok rgb ∧
        Stack rgb gradient = .ok stacked ∧
        env.InpaintingTexture stacked mask (env.parseUnsigned a3)
          PointCloudHoleFilling.numberOfKNN = .ok filled ∧
        Extract filled [3, 4] = .ok outGradient ∧
        Extract filled [0, 1, 2] = .ok outRGB ∧
        (PointCloudHoleFilling.main env [a0, a1, a2, a3, a4]).state.vars.rgbImage = some rgb ∧
        (PointCloudHoleFilling.main env [a0, a1, a2, a3, a4]).state.vars.depthGradientImage
          = some gradient ∧
        (PointCloudHoleFilling.main env [a0, a1, a2, a3, a4]).state.vars.rgbDxDyImage
          = some filled ∧
        (PointCloudHoleFilling.main env [a0, a1, a2, a3, a4]).state.vars.inpaintedDepthGradients
          = some outGradient ∧
        (PointCloudHoleFilling.main env [a0, a1, a2, a3, a4]).state.vars.inpaintedRGBImage
          = some outRGB ∧
        (filled = stacked → outRGB = rgb ∧ outGradient = gradient)) ∧
    ((∀ ev ∈ (ReconstructRGBDxDy.main env [a0, a1, a2, a3, a4]).state.events,
        ev.ok = true) →
      (ReconstructRGBDxDy.main env [a0, a1, a2, a3, a4]).state.events =
        (ReconstructRGBDxDy.calls a1 a2 a3 a4).map (fun c => ⟨c, true⟩) ∧
      (ReconstructRGBDxDy.main env [a0, a1, a2, a3, a4]).outcome = .returned EXIT_SUCCESS ∧
      ∃ (raster : Image (Vec V 5)) (outRGB : Image (Vec V 3)) (outGradient : Image (Vec V 2)),
        env.ImageFileReader_Update a3 = .ok raster ∧
        Extract raster [3, 4] = .ok outGradient ∧
        Extract raster [0, 1, 2] = .ok outRGB ∧
        (ReconstructRGBDxDy.main env [a0, a1, a2, a3, a4]).state.vars.rgbDxDyImage
          = some raster ∧
        (ReconstructRGBDxDy.main env [a0, a1, a2, a3, a4]).state.vars.inpaintedDepthGradients
          = some outGradient ∧
        (ReconstructRGBDxDy.main env [a0, a1, a2, a3, a4]).state.vars.inpaintedRGBImage
          = some outRGB ∧
        (∀ (RGB : Image (Vec V 3)) (G : Image (Vec V 2)), Stack RGB G = .ok raster →
          outRGB = RGB ∧ outGradient = G)) := by
  refine ⟨fun RGB G h => ?_, fun RGB G h => ?_, fun hok => ?_, fun hok => ?_⟩
  · have hS : Stack RGB G = .ok { region := RGB.region
                                  pixel := fun cell => Fin.append (RGB.pixel cell) (G.pixel cell) } := by
      unfold Stack
      rw [if_pos h]
    exact ⟨_, hS, extract_stack_rgb RGB G _ hS, extract_stack_gradient RGB G _ hS⟩
  · exact ⟨_, by unfold Stack; rw [if_neg h]⟩
  · obtain ⟨hev, hdone⟩ := PointCloudHoleFilling.full_completed env a0 a1 a2 a3 a4 hok
    obtain ⟨ptxImage, mask, depthImage, depthGradientImage, rgbImage, stacked, rgbDxDyImage,
      inpaintedDepthGradients, inpaintedRGBImage, inpaintedDepthImage, marked, withDepth,
      filledPTX, h1, h2, -, h3, h4, h5, h6, h7, h8, h9, -, -, -, -, hvars, -⟩ :=
      PointCloudHoleFilling.full_flow env a0 a1 a2 a3 a4 _ hdone
    rw [hStack] at h6
    rw [hExtract] at h8 h9
    refine ⟨hev, hdone, ptxImage, mask, depthImage, rgbImage, depthGradientImage, stacked,
      rgbDxDyImage, inpaintedRGBImage, inpaintedDepthGradients, h1, h2, h3, h4, h5, h6, h7,
      h8, h9, by rw [hvars], by rw [hvars], by rw [hvars], by rw [hvars], by rw [hvars],
      fun hfilled => ?_⟩
    subst hfilled
    rw [extract_stack_rgb _ _ _ h6] at h9
    rw [extract_stack_gradient _ _ _ h6] at h8
    cases h8
    cases h9
    exact ⟨rfl, rfl⟩
  · obtain ⟨hev, hdone⟩ := ReconstructRGBDxDy.recon_completed env a0 a1 a2 a3 a4 hok
    obtain ⟨ptxImage, mask, invalidMaskImage, invalidMask, rgbdImage, smallHoleFillerOutput,
      allValid, validPTX, rgbDxDyImage, inpaintedDepthGradients, inpaintedRGBImage, depthImage,
      inpaintedDepthImage, marked, withDepth, filledPTX, -, -, -, -, -, -, -, -, -, h16, h17,
      h19, -, -, -, -, -, hvars, -⟩ := ReconstructRGBDxDy.recon_flow env a0 a1 a2 a3 a4 _ hdone
    rw [hExtract] at h17 h19
    refine ⟨hev, hdone, rgbDxDyImage, inpaintedRGBImage, inpaintedDepthGradients, h16, h17,
      h19, by rw [hvars], by rw [hvars], by rw [hvars], fun RGB G hraster => ?_⟩
    rw [extract_stack_rgb _ _ _ hraster] at h19
    rw [extract_stack_gradient _ _ _ hraster] at h17
    cases h17
    cases h19
    exact ⟨rfl, rfl⟩

theorem sample_stack : Stack sampleColour sampleGradient = .ok sampleRGBDxDy := by
  unfold Stack
  rw [if_pos (show sampleColour.region = sampleGradient.region from rfl)]
  congr 1
  unfold sampleRGBDxDy
  congr 1
  funext cell (k : Fin 5)
  fin_cases k <;> rfl

/-- C8 with the specified channel compositor, a texture fill that changes no cell and
collaborators that never fail: the full pipeline makes every call of its sequence,
the StackImages call among them, and ends with the extracted colour and gradient
rasters equal to the derived RGB raster and the computed gradient; the
reconstruction-only pipeline, whose precomputed raster is the stack of `sampleColour`
and `sampleGradient`, ends with these two as the extracted rasters. -/
theorem channel_round_trip_witness :
    (PointCloudHoleFilling.main sampleEnv ["prog", "cloud.ptx", "hole.mask", "3", "out"]
      ).state.events =
      (PointCloudHoleFilling.calls sampleEnv "cloud.ptx" "hole.mask" "3" "out").map
        (fun c => ⟨c, true⟩) ∧
    (PointCloudHoleFilling.main sampleEnv ["prog", "cloud.ptx", "hole.mask", "3", "out"]
      ).state.vars.rgbImage = some (DeriveRGBRaster sampleCloud) ∧
    (PointCloudHoleFilling.main sampleEnv ["prog", "cloud.ptx", "hole.mask", "3", "out"]
      ).state.vars.inpaintedRGBImage = some (DeriveRGBRaster sampleCloud) ∧
    (PointCloudHoleFilling.main sampleEnv ["prog", "cloud.ptx", "hole.mask", "3", "out"]
      ).state.vars.inpaintedDepthGradients =
    (PointCloudHoleFilling.main sampleEnv ["prog", "cloud.ptx", "hole.mask", "3", "out"]
      ).state.vars.depthGradientImage ∧
    (ReconstructRGBDxDy.main sampleEnv ["prog", "cloud.ptx", "hole.mask", "3", "out"]
      ).state.vars.inpaintedRGBImage = some sampleColour ∧
    (ReconstructRGBDxDy.main sampleEnv ["prog", "cloud.ptx", "hole.mask", "3", "out"]
      ).state.vars.inpaintedDepthGradients = some sampleGradient := by
  have h := channel_round_trip sampleEnv "prog" "cloud.ptx" "hole.mask" "3" "out"
    (fun _ _ => rfl) (fun _ _ => rfl)
  obtain ⟨hev, -, loaded, mask, depth, rgb, gradient, stacked, filled, outRGB, outGradient,
    h1, -, -, -, h5, -, h7, -, -, hrgb, hgrad, -, houtG, houtRGB, hid⟩ := h.2.2.1 (by decide)
  obtain ⟨-, -, raster, outRGB2, outGradient2, h16, -, -, -, houtG2, houtRGB2, hstack⟩ :=
    h.2.2.2 (by decide)
  have h1 : Except.ok sampleCloud = Except.ok loaded := h1
  cases h1
  have h5 : Except.ok (DeriveRGBRaster sampleCloud) = Except.ok rgb := h5
  cases h5
  have h7 : Except.ok stacked = Except.ok filled := h7
  cases h7
  have h16 : Except.ok sampleRGBDxDy = Except.ok raster := h16
  cases h16
  obtain ⟨e1, e2⟩ := hid rfl
  obtain ⟨e3, e4⟩ := hstack _ _ sample_stack
  subst e1 e2 e3 e4
  exact ⟨hev, hrgb, houtRGB, houtG.trans hgrad.symm, houtRGB2, houtG2⟩

/-- C9 as stated fails in the reconstruction-only driver: `SetAllPointsToValid` is
called on the loaded cloud `ptxImage` itself, before any copy is made, and at the end
of the run the cell `(0, 0)`, loaded as invalid, is marked valid in it. -/
theorem loaded_cloud_kept_counterexample :
    sampleEnv.PTXReader_Read "cloud.ptx" = .ok sampleCloud ∧
    (sampleCloud.point (0, 0)).valid = false ∧
    (ReconstructRGBDxDy.main sampleEnv sampleArgv).state.vars.ptxImage.map
      (fun c => (c.point (0, 0)).valid) = some true ∧
    (ReconstructRGBDxDy.main sampleEnv sampleArgv).state.events.take 15 =
      ((ReconstructRGBDxDy.calls "cloud.ptx" "hole.mask" "3" "out").take 15).map
        (fun c => ⟨c, true⟩) ∧
    ((ReconstructRGBDxDy.main sampleEnv sampleArgv).state.events.get? 13).map Event.call
      = some (.SetAllPointsToValid .ptxImage) ∧
    changesOnlyTheCopy false (ReconstructRGBDxDy.main sampleEnv sampleArgv).state.events
      = false :=
  ⟨rfl, by decide, by decide, by decide, by decide, by decide⟩

/-- C9, amended: in the full pipeline every call that changes a cloud comes after the
copy of the loaded cloud and changes the copy, and at the end of every run the loaded
cloud is the cloud as `PTXReader::Read` returned it.  In the reconstruction-only
driver the calls that follow the copy change the copy only; the first
`SetAllPointsToValid` and the `ReplaceRGBD` are applied to the loaded cloud itself,
and at the end of a completed run the cloud variable holds what these two calls made
of the loaded cloud. -/
theorem copy_then_mutate (env : Env V) (a0 a1 a2 a3 a4 : String) :
    changesOnlyTheCopy false
      (PointCloudHoleFilling.main env [a0, a1, a2, a3, a4]).state.events = true ∧
    (PointCloudHoleFilling.main env [a0, a1, a2, a3, a4]).state.vars.ptxImage
      = (env.PTXReader_Read a1).toOption ∧
    changesOnlyTheCopy true
      (afterCopy (ReconstructRGBDxDy.main env [a0, a1, a2, a3, a4]).state.events) = true ∧
    ((ReconstructRGBDxDy.main env [a0, a1, a2, a3, a4]).outcome = .returned EXIT_SUCCESS →
      ∃ (loaded allValid afterReplace : PTXImage V) (filled : Image (Vec V 4)),
        env.PTXReader_Read a1 = .ok loaded ∧
        env.SetAllPointsToValid loaded = .ok allValid ∧
        env.ReplaceRGBD allValid filled = .ok afterReplace ∧
        (ReconstructRGBDxDy.main env [a0, a1, a2, a3, a4]).state.vars.ptxImage
          = some afterReplace ∧
        (ReconstructRGBDxDy.main env [a0, a1, a2, a3, a4]).state.events.map Event.call
          = ReconstructRGBDxDy.calls a1 a2 a3 a4) := by
  obtain ⟨⟨k, hev, -, -⟩, hptx, -⟩ := PointCloudHoleFilling.full_all_runs env a0 a1 a2 a3 a4
  obtain ⟨⟨k2, hev2, -, hout2⟩, -⟩ := ReconstructRGBDxDy.recon_all_runs env a0 a1 a2 a3 a4
  refine ⟨?_, hptx, ?_, fun hdone => ?_⟩
  · rw [hev]
    exact (PointCloudHoleFilling.full_trace_checks env a1 a2 a3 a4 k).2
  · rw [hev2]
    exact (ReconstructRGBDxDy.recon_trace_checks a1 a2 a3 a4 k2).2
  · obtain ⟨ptxImage, mask, invalidMaskImage, invalidMask, rgbdImage, smallHoleFillerOutput,
      allValid, validPTX, rgbDxDyImage, inpaintedDepthGradients, inpaintedRGBImage, depthImage,
      inpaintedDepthImage, marked, withDepth, filledPTX, h1, -, -, -, -, -, -, h13, h14, -, -,
      -, -, -, -, -, -, hvars, -⟩ := ReconstructRGBDxDy.recon_flow env a0 a1 a2 a3 a4 _ hdone
    refine ⟨ptxImage, allValid, validPTX, smallHoleFillerOutput, h1, h13, h14, by rw [hvars], ?_⟩
    rcases Nat.lt_or_ge k2 (ReconstructRGBDxDy.calls a1 a2 a3 a4).length with hk | hk
    · rw [if_pos hk, hdone] at hout2
      obtain ⟨e, he⟩ := hout2
      cases he
    · rw [hev2, traceAt_of_le _ k2 hk]
      simp [Function.comp_def]

/-- C9, amended, with collaborators that never fail: the full pipeline ends with the
loaded cloud as it was read. -/
theorem copy_then_mutate_witness :
    (PointCloudHoleFilling.main sampleEnv ["prog", "cloud.ptx", "hole.mask", "3", "out"]
      ).state.vars.ptxImage = some sampleCloud :=
  (copy_then_mutate sampleEnv "prog" "cloud.ptx" "hole.mask" "3" "out").2.1

/-- C10: when the depth reconstructor returns the input depth at every cell the mask
marks valid, the depth raster is the stored depth of every cell, `SetAllPointsToValid`
marks every cell valid and the Replace operations overwrite the cells marked valid,
the cloud exported by a completed run of the full pipeline has, at every cell the mask
marks valid, the depth of the loaded cloud at that cell, whatever the validity the
loaded cloud gave the cell.  The depth raster and the mask handed to the reconstructor
are the raster derived from the loaded cloud and the mask read from the file, and at
the end of the run the loaded cloud, the mask and that depth raster are what they
were. -/
theorem known_depth_kept (env : Env V) (a0 a1 a2 a3 a4 : String)
    (hFidelity : ∀ depth mask gradient out, env.FillScalarImage depth mask gradient = .ok out →
      ∀ cell, mask.valid cell = true → out.pixel cell = depth.pixel cell)
    (hDerive : ∀ c, env.CreateDepthImage c = .ok (DeriveDepthRaster c))
    (hMark : ∀ c, env.SetAllPointsToValid c = .ok (MarkAllValid c))
    (hDepth : ∀ c r, env.ReplaceDepth c r = .ok (ReplaceDepth c r))
    (hRGB : ∀ c r, env.ReplaceRGB c r = .ok (ReplaceRGB c r))
    (hdone : (PointCloudHoleFilling.main env [a0, a1, a2, a3, a4]).outcome
      = .returned EXIT_SUCCESS) :
    ∃ (loaded : PTXImage V) (mask : Mask) (gradient : Image (Vec V 2)) (D : Image V)
      (cloud : PTXImage V),
      env.PTXReader_Read a1 = .ok loaded ∧
      env.Mask_Read a2 = .ok mask ∧
      mask.region = loaded.fullRegion ∧
      env.FillScalarImage (DeriveDepthRaster loaded) mask gradient = .ok D ∧
      (PointCloudHoleFilling.main env [a0, a1, a2, a3, a4]).state.vars.ptxImage = some loaded ∧
      (PointCloudHoleFilling.main env [a0, a1, a2, a3, a4]).state.vars.mask = some mask ∧
      (PointCloudHoleFilling.main env [a0, a1, a2, a3, a4]).state.vars.depthImage
        = some (DeriveDepthRaster loaded) ∧
      (PointCloudHoleFilling.main env [a0, a1, a2, a3, a4]).state.vars.inpaintedDepthImage
        = some D ∧
      (PointCloudHoleFilling.main env [a0, a1, a2, a3, a4]).state.files
        = [(a4, .pointSet cloud)] ∧
      ∀ cell, mask.valid cell = true →
        (cloud.point cell).depth = (loaded.point cell).depth := by
  obtain ⟨ptxImage, mask, depthImage, depthGradientImage, rgbImage, stacked, rgbDxDyImage,
    inpaintedDepthGradients, inpaintedRGBImage, inpaintedDepthImage, marked, withDepth,
    filledPTX, h1, h2, hreg, h3, -, -, -, -, -, -, h10, h12, h13, h14, hvars, hfiles⟩ :=
    PointCloudHoleFilling.full_flow env a0 a1 a2 a3 a4 _ hdone
  rw [hDerive] at h3
  rw [hMark] at h12
  rw [hDepth] at h13
  rw [hRGB] at h14
  cases h3
  cases h12
  cases h13
  cases h14
  refine ⟨ptxImage, mask, inpaintedDepthGradients, inpaintedDepthImage, _, h1, h2, hreg, h10,
    by rw [hvars], by rw [hvars], by rw [hvars], by rw [hvars], hfiles, fun cell hv => ?_⟩
  have := hFidelity _ _ _ _ h10 cell hv
  simp [ReplaceRGB, ReplaceDepth, MarkAllValid, this, DeriveDepthRaster]

/-- C10 with a reconstructor that keeps the depth where the mask is valid: the cell
`(0, 0)` is invalid in the loaded cloud and valid in the mask, and the completed run
exports the loaded depth there. -/
theorem known_depth_kept_witness :
    (sampleCloud.point (0, 0)).valid = false ∧ sampleMask.valid (0, 0) = true ∧
    ∃ (loaded : PTXImage Nat) (mask : Mask) (gradient : Image (Vec Nat 2)) (D : Image Nat)
      (cloud : PTXImage Nat),
      sampleEnv.PTXReader_Read "cloud.ptx" = .ok loaded ∧
      sampleEnv.Mask_Read "hole.mask" = .ok mask ∧
      mask.region = loaded.fullRegion ∧
      sampleEnv.FillScalarImage (DeriveDepthRaster loaded) mask gradient = .ok D ∧
      (PointCloudHoleFilling.main sampleEnv ["prog", "cloud.ptx", "hole.mask", "3", "out"]
        ).state.vars.ptxImage = some loaded ∧
      (PointCloudHoleFilling.main sampleEnv ["prog", "cloud.ptx", "hole.mask", "3", "out"]
        ).state.vars.mask = some mask ∧
      (PointCloudHoleFilling.main sampleEnv ["prog", "cloud.ptx", "hole.mask", "3", "out"]
        ).state.vars.depthImage = some (DeriveDepthRaster loaded) ∧
      (PointCloudHoleFilling.main sampleEnv ["prog", "cloud.ptx", "hole.mask", "3", "out"]
        ).state.vars.inpaintedDepthImage = some D ∧
      (PointCloudHoleFilling.main sampleEnv ["prog", "cloud.ptx", "hole.mask", "3", "out"]
        ).state.files = [("out", .pointSet cloud)] ∧
      ∀ cell, mask.valid cell = true →
        (cloud.point cell).depth = (loaded.point cell).depth :=
  ⟨by decide, by decide,
    known_depth_kept sampleEnv "prog" "cloud.ptx" "hole.mask" "3" "out"
      (fun depth mask gradient out h cell hv => by
        have h : Except.ok (Image.mk depth.region
            (fun cell => if mask.valid cell = true then depth.pixel cell else 0))
            = Except.ok out := h
        cases h
        simp [hv])
      (fun _ => rfl) (fun _ => rfl) (fun _ _ => rfl) (fun _ _ => rfl) (by decide)⟩

end PCHF
